import Mathlib

/-!
Verification development for the trakt-proxy repository.

Shallow embedding of the two core subsystems described in the project
documentation: the TMDB season-level metadata cache (`src/lib/tmdb-cache.ts`,
first revision in the file, which is the transactional head revision the
claim line numbers point into), the episode enrichment engine
(`src/unnamed/part_003`, `enrichEpisodeTracking`) and the Trakt sync
orchestrator (`src/lib/trakt-sync.ts`).

Modelling conventions:
* Firestore `Timestamp` values and JavaScript epoch milliseconds are both
  embedded as `Int` (milliseconds).  `Date.now()` becomes an explicit `now`
  parameter.
* JavaScript date parsing (`new Date(s).getTime()`) is an abstract parameter
  `pd : String → Option Int`; `none` stands for an invalid date (`NaN`).
* JavaScript objects used as dictionaries inside one function are embedded as
  association lists (preserving insertion order and the update-in-place
  semantics of `obj[k] = v`); Firestore document maps are embedded as
  functions `κ → Option ν` (Firestore maps are unordered).
* `fetch` results are `Except`/`Option` parameters, so a season fetch or a
  collection pull is a value of the environment rather than an effect.
-/

/-! ## TMDB season cache (`src/lib/tmdb-cache.ts`, head revision, lines 1-324) -/

/-- TTL constants from `src/lib/tmdb-cache.ts` lines 16-19. -/
def DEFAULT_TTL_DAYS : Int := 30

/-- 7-day TTL used for seasons classified as ongoing. -/
def ONGOING_TTL_DAYS : Int := 7

/-- A season counts as ongoing when its latest episode aired within this many days. -/
def RECENT_AIR_DATE_DAYS : Int := 14

/-- Minutes to wait before retrying after a fetch error. -/
def ERROR_TTL_MINUTES : Int := 5

/-- Milliseconds in one day (`24 * 60 * 60 * 1000`). -/
def dayMs : Int := 24 * 60 * 60 * 1000

/-- `SeasonCacheEpisode` (tmdb-cache.ts lines 25-29).  `episodeAirDate` is
`string | null`; `none` embeds `null`. -/
structure SeasonCacheEpisode where
  episodeId : Int
  episodeName : String
  episodeAirDate : Option String
deriving DecidableEq, Repr

/-- Cache entry status (`"complete" | "populating" | "error"`). -/
inductive CacheStatus
  | complete
  | populating
  | error
deriving DecidableEq, Repr

/-- `SeasonCache` (tmdb-cache.ts lines 31-35).  The `episodes` record keyed by
episode-number strings is embedded as an association list keyed by `Nat`;
a document written without an `episodes` field (the `merge: true` writes)
is represented by the empty list, which is observationally equivalent
because `episodes` is only ever read from `complete` entries. -/
structure SeasonCache where
  episodes : List (Nat × SeasonCacheEpisode)
  lastUpdated : Int
  status : CacheStatus
deriving DecidableEq, Repr

/-- `Object.keys(episodes).map(Number).sort((a, b) => b - a)[0]`: the greatest
numeric key of the episodes record, if any. -/
def maxKey : List Nat → Option Nat
  | [] => none
  | k :: ks => some (ks.foldl max k)

/-- `isSeasonOngoing` (tmdb-cache.ts lines 74-96).  The source takes the
highest-numbered episode; `!latestEpisode.episodeAirDate` is JavaScript
falsiness, so both `null` and the empty string count as "no air date";
an unparseable date gives `NaN` and `NaN < 14` is `false`.
`daysSinceAired < RECENT_AIR_DATE_DAYS` is stated over milliseconds
(the real-number division by `1000*60*60*24` is strictly monotone). -/
def isSeasonOngoing (now : Int) (pd : String → Option Int)
    (episodes : List (Nat × SeasonCacheEpisode)) : Bool :=
  match maxKey (episodes.map Prod.fst) with
  | none => false
  | some k =>
    match episodes.lookup k with
    | none => false   -- unreachable: the greatest key is drawn from the key list
    | some latestEpisode =>
      match latestEpisode.episodeAirDate with
      | none => true
      | some s =>
        if s = "" then true
        else
          match pd s with
          | none => false
          | some airMs => decide (now - airMs < RECENT_AIR_DATE_DAYS * dayMs)

/-- The TTL in days picked by `isCacheStale` (tmdb-cache.ts line 62). -/
def ttlDays (now : Int) (pd : String → Option Int)
    (episodes : List (Nat × SeasonCacheEpisode)) : Int :=
  if isSeasonOngoing now pd episodes then ONGOING_TTL_DAYS else DEFAULT_TTL_DAYS

/-- `isCacheStale` (tmdb-cache.ts lines 55-66). -/
def isCacheStale (now : Int) (pd : String → Option Int) (cache : SeasonCache) : Bool :=
  decide (now - cache.lastUpdated > ttlDays now pd cache.episodes * dayMs)

/-- Raw TMDB episode as delivered by the season endpoint (tmdb-cache.ts lines 40-45). -/
structure TMDBEpisodeRaw where
  id : Int
  name : String
  episode_number : Nat
  air_date : Option String
deriving DecidableEq, Repr

/-- JavaScript object insert: replace the value if the key is present
(in place, keeping the key order), append otherwise. -/
def jsSet {α : Type} {β : Type} [DecidableEq α] (m : List (α × β)) (k : α) (v : β) :
    List (α × β) :=
  if m.any (fun p => p.1 = k) then
    m.map (fun p => if p.1 = k then (k, v) else p)
  else
    m ++ [(k, v)]

/-- `transformSeasonData` (tmdb-cache.ts lines 130-144): keep only
id/name/airDate per episode number. -/
def transformSeasonData (eps : List TMDBEpisodeRaw) : List (Nat × SeasonCacheEpisode) :=
  eps.foldl
    (fun acc ep =>
      jsSet acc ep.episode_number
        { episodeId := ep.id, episodeName := ep.name, episodeAirDate := ep.air_date })
    []

/-- Result of the atomic read-decide-write transaction (tmdb-cache.ts lines 192-257). -/
inductive TxnAction
  | skip
  | returnCache (data : SeasonCache)
  | fetch
deriving DecidableEq, Repr

/-- The transaction body of `getSeasonFromCacheOrTMDB` (tmdb-cache.ts lines
192-257): read the document, decide, and atomically set
`status = "populating"` (with `merge: true`, hence keeping `episodes`)
when this caller is the one that should fetch.  Returns the action and the
document state the transaction commits. -/
def txnDecide (pd : String → Option Int) (now : Int) (doc : Option SeasonCache) :
    TxnAction × Option SeasonCache :=
  match doc with
  | some cacheData =>
    if cacheData.status = CacheStatus.populating then
      (TxnAction.skip, some cacheData)
    else if cacheData.status = CacheStatus.error ∧
        now - cacheData.lastUpdated < ERROR_TTL_MINUTES * 60 * 1000 then
      (TxnAction.skip, some cacheData)
    else if cacheData.status = CacheStatus.complete ∧ isCacheStale now pd cacheData = false then
      (TxnAction.returnCache cacheData, some cacheData)
    else
      (TxnAction.fetch,
        some { cacheData with status := CacheStatus.populating, lastUpdated := now })
  | none =>
    (TxnAction.fetch,
      some { episodes := [], lastUpdated := now, status := CacheStatus.populating })

/-- The `merge: true` error write after a failed TMDB fetch (tmdb-cache.ts
lines 286-292): set status/lastUpdated, preserve any cached episodes. -/
def mergeErrorWrite (now : Int) (doc : Option SeasonCache) : Option SeasonCache :=
  match doc with
  | some c => some { c with status := CacheStatus.error, lastUpdated := now }
  | none => some { episodes := [], lastUpdated := now, status := CacheStatus.error }

/-- One whole sequential run of `getSeasonFromCacheOrTMDB` (tmdb-cache.ts lines
169-324) by a single caller: the transaction happens at time `t1`, the
TMDB fetch outcome is `fetchResult` (`none` embeds a failed fetch), the
post-fetch write happens at time `t2`.  Returns (function result, final
document); the function result `none` is the Skip outcome. -/
def getSeasonFromCacheOrTMDB (pd : String → Option Int) (t1 t2 : Int)
    (fetchResult : Option (List TMDBEpisodeRaw)) (doc : Option SeasonCache) :
    Option SeasonCache × Option SeasonCache :=
  match txnDecide pd t1 doc with
  | (TxnAction.skip, d) => (none, d)
  | (TxnAction.returnCache c, d) => (some c, d)
  | (TxnAction.fetch, d) =>
    match fetchResult with
    | none => (none, mergeErrorWrite t2 d)
    | some raw =>
      let cacheData : SeasonCache :=
        { episodes := transformSeasonData raw, lastUpdated := t2, status := CacheStatus.complete }
      (some cacheData, some cacheData)

/-! ### Interleaving model for the single-flight guarantee (claim C1)

Each concurrent caller of `getSeasonFromCacheOrTMDB` executes its Firestore
transaction as one atomic step against the shared document.  A caller is in
`start` before its transaction, in `fetching` after committing the
`populating` lock (this is exactly the callers that issue a TMDB fetch), and
in `done r` after returning `r` (`done none` is the Skip return). -/

/-- Program counter of one concurrent `getSeasonFromCacheOrTMDB` caller. -/
inductive FlightPC
  | start
  | fetching
  | done (r : Option SeasonCache)
deriving DecidableEq, Repr

/-- Shared cache document plus the program counter of each of `n` callers. -/
structure FlightState (n : Nat) where
  doc : Option SeasonCache
  pcs : Fin n → FlightPC

/-- Initial state: document `d0`, every caller before its transaction. -/
def initFlight (n : Nat) (d0 : Option SeasonCache) : FlightState n :=
  { doc := d0, pcs := fun _ => FlightPC.start }

/-- One atomic transaction step by caller `ev.1` at time `ev.2`.  A caller
whose transaction already ran is left unchanged. -/
def applyTxn {n : Nat} (pd : String → Option Int) (s : FlightState n)
    (ev : Fin n × Int) : FlightState n :=
  match s.pcs ev.1 with
  | FlightPC.start =>
    let r := txnDecide pd ev.2 s.doc
    { doc := r.2,
      pcs := Function.update s.pcs ev.1
        (match r.1 with
         | TxnAction.skip => FlightPC.done none
         | TxnAction.returnCache c => FlightPC.done (some c)
         | TxnAction.fetch => FlightPC.fetching) }
  | _ => s

/-- The state after the listed transaction steps have run in order. -/
def flightRun {n : Nat} (pd : String → Option Int) (events : List (Fin n × Int))
    (d0 : Option SeasonCache) : FlightState n :=
  events.foldl (applyTxn pd) (initFlight n d0)

/-! ## Claim C2 / C8: staleness TTL classification -/

/-- Latest parsed air date over all sub-units (used by the spec-side reading of
the staleness rule, which speaks of "the sub-unit with the latest airDate"). -/
def latestAirDate (pd : String → Option Int)
    (episodes : List (Nat × SeasonCacheEpisode)) : Option Int :=
  episodes.foldl
    (fun acc p =>
      match p.2.episodeAirDate.bind pd with
      | none => acc
      | some a =>
        match acc with
        | none => some a
        | some b => some (max b a))
    none

/-- Spec-side "ongoing" classification, following the claim wording: ongoing
iff any sub-unit lacks an airDate, or the sub-unit with the latest airDate
aired within 14 days of now. -/
def specSeasonOngoing (now : Int) (pd : String → Option Int)
    (episodes : List (Nat × SeasonCacheEpisode)) : Bool :=
  episodes.any (fun p => p.2.episodeAirDate.isNone) ||
    match latestAirDate pd episodes with
    | none => false
    | some m => decide (now - m < RECENT_AIR_DATE_DAYS * dayMs)

/-- Spec-side TTL, following the claim wording. -/
def specTtlDays (now : Int) (pd : String → Option Int)
    (episodes : List (Nat × SeasonCacheEpisode)) : Int :=
  if specSeasonOngoing now pd episodes then ONGOING_TTL_DAYS else DEFAULT_TTL_DAYS

theorem foldl_max_mem (l : List Nat) (a : Nat) : l.foldl max a ∈ a :: l := by
  induction l generalizing a with
  | nil => simp
  | cons c l ih =>
    have h := ih (max a c)
    rw [List.foldl_cons]
    rcases List.mem_cons.mp h with h1 | h1
    · rcases max_choice a c with h2 | h2
      · rw [h1, h2]; exact List.mem_cons_self _ _
      · rw [h1, h2]; simp
    · simp [h1]

theorem le_foldl_max (l : List Nat) : ∀ (a : Nat), ∀ x ∈ a :: l, x ≤ l.foldl max a := by
  induction l with
  | nil =>
    intro a x hx
    simp at hx
    simp [hx]
  | cons c l ih =>
    intro a x hx
    rw [List.foldl_cons]
    rcases List.mem_cons.mp hx with h1 | h1
    · subst h1
      exact le_trans (le_max_left x c) (ih (max x c) (max x c) (List.mem_cons_self _ _))
    · rcases List.mem_cons.mp h1 with h2 | h2
      · subst h2
        exact le_trans (le_max_right a x) (ih (max a x) (max a x) (List.mem_cons_self _ _))
      · exact ih (max a c) x (List.mem_cons.mpr (Or.inr h2))

theorem maxKey_mem {l : List Nat} {k : Nat} (h : maxKey l = some k) : k ∈ l := by
  cases l with
  | nil => simp [maxKey] at h
  | cons a l =>
    simp only [maxKey, Option.some.injEq] at h
    subst h
    exact foldl_max_mem l a

theorem maxKey_is_ub {l : List Nat} {k : Nat} (h : maxKey l = some k) :
    ∀ x ∈ l, x ≤ k := by
  cases l with
  | nil => simp
  | cons a l =>
    simp only [maxKey, Option.some.injEq] at h
    subst h
    intro x hx
    exact le_foldl_max l a x hx

theorem lookup_isSome_of_mem_keys {α β : Type} [BEq α] [LawfulBEq α]
    {l : List (α × β)} {k : α} (h : k ∈ l.map Prod.fst) : (l.lookup k).isSome := by
  induction l with
  | nil => simp at h
  | cons p l ih =>
    obtain ⟨pk, pv⟩ := p
    simp only [List.map_cons, List.mem_cons] at h
    by_cases he : k = pk
    · simp [List.lookup, beq_iff_eq.mpr he]
    · have hne : (k == pk) = false := beq_eq_false_iff_ne.mpr he
      rcases h with h1 | h1
      · exact absurd h1 he
      · simpa [List.lookup, hne] using ih h1

theorem mem_keys_of_lookup {α β : Type} [BEq α] [LawfulBEq α]
    {l : List (α × β)} {k : α} {v : β} (h : l.lookup k = some v) :
    k ∈ l.map Prod.fst := by
  induction l with
  | nil => simp [List.lookup] at h
  | cons p l ih =>
    obtain ⟨pk, pv⟩ := p
    by_cases he : k = pk
    · simp [he]
    · have hne : (k == pk) = false := beq_eq_false_iff_ne.mpr he
      simp only [List.lookup, hne] at h
      simp [ih h]

theorem maxKey_eq_none {l : List Nat} : maxKey l = none ↔ l = [] := by
  cases l <;> simp [maxKey]

/-- What the code actually tests: the highest-numbered sub-unit lacks an
airDate (null or empty string) or has a parseable airDate within the
recent window. -/
def highestNumberedOngoing (now : Int) (pd : String → Option Int)
    (episodes : List (Nat × SeasonCacheEpisode)) : Prop :=
  ∃ k ep, episodes.lookup k = some ep ∧ (∀ p ∈ episodes, p.1 ≤ k) ∧
    (ep.episodeAirDate = none ∨ ep.episodeAirDate = some "" ∨
      ∃ s a, ep.episodeAirDate = some s ∧ s ≠ "" ∧ pd s = some a ∧
        now - a < RECENT_AIR_DATE_DAYS * dayMs)

theorem isSeasonOngoing_iff (now : Int) (pd : String → Option Int)
    (episodes : List (Nat × SeasonCacheEpisode)) :
    isSeasonOngoing now pd episodes = true ↔ highestNumberedOngoing now pd episodes := by
  unfold isSeasonOngoing
  cases hm : maxKey (episodes.map Prod.fst) with
  | none =>
    simp only [Bool.false_eq_true, false_iff]
    rintro ⟨k, ep, hlk, -, -⟩
    have hk := mem_keys_of_lookup hlk
    rw [maxKey_eq_none.mp hm] at hk
    simp at hk
  | some k =>
    have hkmem := maxKey_mem hm
    have hub := maxKey_is_ub hm
    obtain ⟨ep, hep⟩ : ∃ ep, episodes.lookup k = some ep :=
      Option.isSome_iff_exists.mp (lookup_isSome_of_mem_keys hkmem)
    simp only [hep]
    constructor
    · intro h
      refine ⟨k, ep, hep, fun p hp => hub p.1 (List.mem_map_of_mem Prod.fst hp), ?_⟩
      cases had : ep.episodeAirDate with
      | none => exact Or.inl rfl
      | some s =>
        simp only [had] at h
        by_cases hs : s = ""
        · exact Or.inr (Or.inl (by rw [hs]))
        · rw [if_neg hs] at h
          cases hpd : pd s with
          | none =>
            simp only [hpd] at h
            exact absurd h (by decide)
          | some a =>
            simp only [hpd] at h
            exact Or.inr (Or.inr ⟨s, a, rfl, hs, hpd, of_decide_eq_true h⟩)
    · rintro ⟨k2, ep2, hlk2, hub2, hcond⟩
      have hk2k : k2 = k := by
        have h1 : k2 ≤ k := hub k2 (mem_keys_of_lookup hlk2)
        have h2 : k ≤ k2 := by
          obtain ⟨p, hp, hpk⟩ := List.mem_map.mp hkmem
          exact hpk ▸ hub2 p hp
        exact le_antisymm h1 h2
      subst hk2k
      rw [hep] at hlk2
      obtain rfl : ep2 = ep := by injection hlk2 with h; exact h.symm
      rcases hcond with had | had | ⟨s, a, had, hs, hpd, hlt⟩
      · simp only [had]
      · simp only [had]; simp
      · simp only [had]
        rw [if_neg hs, hpd]
        exact decide_eq_true hlt

/-- C2 counterexample input: sub-unit 1 has no airDate (claim: ongoing, 7-day
TTL) but the highest-numbered sub-unit 2 has an airDate 100 days old
(code: not ongoing, 30-day TTL). -/
theorem C2_counterexample :
    ttlDays (100 * dayMs) (fun s => if s = "2020-01-01" then some 0 else none)
        [(1, ⟨11, "e1", none⟩), (2, ⟨12, "e2", some "2020-01-01"⟩)] ≠
      specTtlDays (100 * dayMs) (fun s => if s = "2020-01-01" then some 0 else none)
        [(1, ⟨11, "e1", none⟩), (2, ⟨12, "e2", some "2020-01-01"⟩)] := by
  decide

/-- C2 (amended): the staleness TTL is 7 days iff the highest-numbered
sub-unit lacks an airDate (null or empty) or its airDate parses to within
14 days of now; otherwise it is 30 days.  (The code inspects only the
highest-numbered sub-unit, not "any sub-unit" and not "the sub-unit with
the latest airDate".) -/
theorem C2_ttl_rule (now : Int) (pd : String → Option Int)
    (episodes : List (Nat × SeasonCacheEpisode)) :
    (ttlDays now pd episodes = ONGOING_TTL_DAYS ↔ highestNumberedOngoing now pd episodes) ∧
    (ttlDays now pd episodes = ONGOING_TTL_DAYS ∨ ttlDays now pd episodes = DEFAULT_TTL_DAYS) := by
  unfold ttlDays
  by_cases ho : isSeasonOngoing now pd episodes
  · rw [if_pos ho]
    exact ⟨⟨fun _ => (isSeasonOngoing_iff now pd episodes).mp ho, fun _ => rfl⟩, Or.inl rfl⟩
  · rw [if_neg ho]
    refine ⟨⟨fun h => absurd h (by decide), fun hc => ?_⟩, Or.inr rfl⟩
    exact absurd ((isSeasonOngoing_iff now pd episodes).mpr hc) ho

/-- C8 counterexample: an entry with zero sub-units is classified as NOT
ongoing, and its TTL is not the 7-day ongoing TTL. -/
theorem C8_counterexample :
    isSeasonOngoing 0 (fun _ => none) [] = false ∧
    ttlDays 0 (fun _ => none) [] ≠ ONGOING_TTL_DAYS := by
  decide

/-- C8 (amended): an entry with zero sub-units is classified as not ongoing,
so its staleness TTL is the 30-day default (`isSeasonOngoing` returns
`false` for an empty episodes record, tmdb-cache.ts line 81). -/
theorem C8_empty_not_ongoing (now : Int) (pd : String → Option Int)
    (lastUpdated : Int) (st : CacheStatus) :
    isSeasonOngoing now pd [] = false ∧
    ttlDays now pd [] = DEFAULT_TTL_DAYS ∧
    isCacheStale now pd { episodes := [], lastUpdated := lastUpdated, status := st } =
      decide (now - lastUpdated > DEFAULT_TTL_DAYS * dayMs) := by
  have h : isSeasonOngoing now pd [] = false := rfl
  refine ⟨h, ?_, ?_⟩
  · unfold ttlDays
    rw [h]
    simp
  · unfold isCacheStale ttlDays
    rw [h]
    simp

/-! ## Claim C6: failed fetch writes status=error preserving episodes -/

/-- The episodes map currently stored under a cache key (empty when the
document is missing or was created without an `episodes` field). -/
def cachedEpisodes (doc : Option SeasonCache) : List (Nat × SeasonCacheEpisode) :=
  match doc with
  | some c => c.episodes
  | none => []

theorem txnDecide_fetch_doc (pd : String → Option Int) (now : Int) (doc : Option SeasonCache)
    (h : (txnDecide pd now doc).1 = TxnAction.fetch) :
    (txnDecide pd now doc).2 =
      some { episodes := cachedEpisodes doc, lastUpdated := now,
             status := CacheStatus.populating } := by
  cases doc with
  | none => rfl
  | some c =>
    unfold txnDecide at h ⊢
    dsimp only at h ⊢
    split_ifs at h ⊢ with h1 h2 h3
    rfl

/-- C6: whenever the transaction step decided to fetch (the caller is the
single-flight winner) and the TMDB fetch fails, `getSeasonFromCacheOrTMDB`
returns Skip and the entry is written with status=error and
lastUpdated=now while the previously cached episodes map is preserved
unchanged (the `merge: true` write at tmdb-cache.ts lines 286-292). -/
theorem C6_error_write_preserves (pd : String → Option Int) (t1 t2 : Int)
    (d0 : Option SeasonCache) (h : (txnDecide pd t1 d0).1 = TxnAction.fetch) :
    (getSeasonFromCacheOrTMDB pd t1 t2 none d0).1 = none ∧
    (getSeasonFromCacheOrTMDB pd t1 t2 none d0).2 =
      some { episodes := cachedEpisodes d0, lastUpdated := t2,
             status := CacheStatus.error } := by
  have hd := txnDecide_fetch_doc pd t1 d0 h
  unfold getSeasonFromCacheOrTMDB
  cases htd : txnDecide pd t1 d0 with
  | mk a d =>
    rw [htd] at h hd
    simp only at h hd
    subst h
    subst hd
    exact ⟨rfl, rfl⟩

/-- Witness for C6 at a concrete stale complete entry holding one episode. -/
theorem C6_error_write_preserves_witness :
    (txnDecide (fun _ => none) (100 * dayMs)
        (some ⟨[(1, ⟨5, "pilot", none⟩)], 0, CacheStatus.complete⟩)).1 = TxnAction.fetch ∧
    ((getSeasonFromCacheOrTMDB (fun _ => none) (100 * dayMs) (101 * dayMs) none
        (some ⟨[(1, ⟨5, "pilot", none⟩)], 0, CacheStatus.complete⟩)).1 = none ∧
      (getSeasonFromCacheOrTMDB (fun _ => none) (100 * dayMs) (101 * dayMs) none
        (some ⟨[(1, ⟨5, "pilot", none⟩)], 0, CacheStatus.complete⟩)).2 =
        some ⟨cachedEpisodes (some ⟨[(1, ⟨5, "pilot", none⟩)], 0, CacheStatus.complete⟩),
          101 * dayMs, CacheStatus.error⟩) :=
  ⟨by decide,
    C6_error_write_preserves (fun _ => none) (100 * dayMs) (101 * dayMs)
      (some ⟨[(1, ⟨5, "pilot", none⟩)], 0, CacheStatus.complete⟩) (by decide)⟩

/-! ## Claim C1: single-flight under concurrent callers -/

theorem txnDecide_populating (pd : String → Option Int) (now : Int) (c : SeasonCache)
    (h : c.status = CacheStatus.populating) :
    txnDecide pd now (some c) = (TxnAction.skip, some c) := by
  unfold txnDecide
  dsimp only
  rw [if_pos h]

theorem applyTxn_noop {n : Nat} (pd : String → Option Int) (s : FlightState n)
    (ev : Fin n × Int) (h : s.pcs ev.1 ≠ FlightPC.start) :
    applyTxn pd s ev = s := by
  unfold applyTxn
  cases hpc : s.pcs ev.1 with
  | start => exact absurd hpc h
  | fetching => rfl
  | done r => rfl

theorem applyTxn_pcs_other {n : Nat} (pd : String → Option Int) (s : FlightState n)
    (ev : Fin n × Int) (j : Fin n) (hj : j ≠ ev.1) :
    (applyTxn pd s ev).pcs j = s.pcs j := by
  unfold applyTxn
  cases hpc : s.pcs ev.1 with
  | start =>
    dsimp only
    rw [Function.update_noteq hj]
  | fetching => rfl
  | done r => rfl

/-- Invariant holding once the winner `w` has committed the populating lock:
the shared document has status=populating, the winner is fetching, and
every other caller is either still before its transaction or has returned
Skip. -/
def FlightInv {n : Nat} (w : Fin n) (s : FlightState n) : Prop :=
  (∃ c, s.doc = some c ∧ c.status = CacheStatus.populating) ∧
  s.pcs w = FlightPC.fetching ∧
  ∀ j, j ≠ w → s.pcs j = FlightPC.start ∨ s.pcs j = FlightPC.done none

theorem flightInv_step {n : Nat} (pd : String → Option Int) (w : Fin n)
    (s : FlightState n) (ev : Fin n × Int) (h : FlightInv w s) :
    FlightInv w (applyTxn pd s ev) ∧
    (ev.1 ≠ w → (applyTxn pd s ev).pcs ev.1 = FlightPC.done none) := by
  obtain ⟨⟨c, hdoc, hpop⟩, hw, hrest⟩ := h
  by_cases hew : ev.1 = w
  · have hnoop := applyTxn_noop pd s ev (by rw [hew, hw]; simp)
    rw [hnoop]
    exact ⟨⟨⟨c, hdoc, hpop⟩, hw, hrest⟩, fun hne => absurd hew hne⟩
  · rcases hrest ev.1 hew with hpc | hpc
    · have happ : applyTxn pd s ev =
          { doc := some c, pcs := Function.update s.pcs ev.1 (FlightPC.done none) } := by
        unfold applyTxn
        simp only [hpc, hdoc, txnDecide_populating pd ev.2 c hpop]
      rw [happ]
      refine ⟨⟨⟨c, rfl, hpop⟩, ?_, ?_⟩, ?_⟩
      · dsimp only
        rw [Function.update_noteq (Ne.symm hew)]
        exact hw
      · intro j hj
        by_cases hje : j = ev.1
        · subst hje
          dsimp only
          rw [Function.update_same]
          exact Or.inr rfl
        · dsimp only
          rw [Function.update_noteq hje]
          exact hrest j hj
      · intro _
        dsimp only
        rw [Function.update_same]
    · have hnoop := applyTxn_noop pd s ev (by rw [hpc]; simp)
      rw [hnoop]
      exact ⟨⟨⟨c, hdoc, hpop⟩, hw, hrest⟩, fun _ => hpc⟩

theorem fold_preserves_done {n : Nat} (pd : String → Option Int)
    (events : List (Fin n × Int)) (s : FlightState n) (j : Fin n)
    (h : s.pcs j = FlightPC.done none) :
    (events.foldl (applyTxn pd) s).pcs j = FlightPC.done none := by
  induction events generalizing s with
  | nil => exact h
  | cons ev evs ih =>
    rw [List.foldl_cons]
    apply ih
    by_cases hje : ev.1 = j
    · have hnoop := applyTxn_noop pd s ev (by rw [hje, h]; simp)
      rw [hnoop]
      exact h
    · rw [applyTxn_pcs_other pd s ev j (Ne.symm hje)]
      exact h

theorem fold_inv {n : Nat} (pd : String → Option Int) (w : Fin n)
    (events : List (Fin n × Int)) (s : FlightState n) (h : FlightInv w s) :
    FlightInv w (events.foldl (applyTxn pd) s) ∧
    ∀ j, j ≠ w → j ∈ events.map Prod.fst →
      (events.foldl (applyTxn pd) s).pcs j = FlightPC.done none := by
  induction events generalizing s with
  | nil => exact ⟨h, by simp⟩
  | cons ev evs ih =>
    have hstep := flightInv_step pd w s ev h
    rw [List.foldl_cons]
    refine ⟨(ih _ hstep.1).1, ?_⟩
    intro j hjw hjmem
    simp only [List.map_cons, List.mem_cons] at hjmem
    rcases hjmem with hje | hje
    · subst hje
      exact fold_preserves_done pd evs _ ev.1 (hstep.2 hjw)
    · exact (ih _ hstep.1).2 j hjw hje

theorem txnDecide_eligible (pd : String → Option Int) (now : Int) (d0 : Option SeasonCache)
    (h : d0 = none ∨ ∃ c, d0 = some c ∧ c.status = CacheStatus.complete ∧
      isCacheStale now pd c = true) :
    (txnDecide pd now d0).1 = TxnAction.fetch := by
  rcases h with rfl | ⟨c, rfl, hcs, hstale⟩
  · rfl
  · have h1 : ¬ c.status = CacheStatus.populating := by rw [hcs]; decide
    have h2 : ¬ (c.status = CacheStatus.error ∧
        now - c.lastUpdated < ERROR_TTL_MINUTES * 60 * 1000) := by
      rintro ⟨hh, -⟩
      rw [hcs] at hh
      exact absurd hh (by decide)
    have h3 : ¬ (c.status = CacheStatus.complete ∧ isCacheStale now pd c = false) := by
      rintro ⟨-, hh⟩
      rw [hstale] at hh
      exact absurd hh (by decide)
    unfold txnDecide
    dsimp only
    rw [if_neg h1, if_neg h2, if_neg h3]

theorem applyTxn_init {n : Nat} (pd : String → Option Int) (ev : Fin n × Int)
    (d0 : Option SeasonCache) :
    applyTxn pd (initFlight n d0) ev =
      { doc := (txnDecide pd ev.2 d0).2,
        pcs := Function.update (fun _ => FlightPC.start) ev.1
          (match (txnDecide pd ev.2 d0).1 with
           | TxnAction.skip => FlightPC.done none
           | TxnAction.returnCache c => FlightPC.done (some c)
           | TxnAction.fetch => FlightPC.fetching) } := rfl

theorem flightInv_first {n : Nat} (pd : String → Option Int) (ev : Fin n × Int)
    (d0 : Option SeasonCache)
    (helig : d0 = none ∨ ∃ c, d0 = some c ∧ c.status = CacheStatus.complete ∧
      isCacheStale ev.2 pd c = true) :
    FlightInv ev.1 (applyTxn pd (initFlight n d0) ev) := by
  have hact := txnDecide_eligible pd ev.2 d0 helig
  have hdoc := txnDecide_fetch_doc pd ev.2 d0 hact
  rw [applyTxn_init]
  simp only [hact, hdoc]
  refine ⟨⟨_, rfl, rfl⟩, ?_, ?_⟩
  · dsimp only
    rw [Function.update_same]
  · intro j hj
    dsimp only
    rw [Function.update_noteq hj]
    exact Or.inl rfl

/-- C1: from a missing or expired entry, for any interleaving of the atomic
transaction steps of any number of concurrent callers (all of which run
before the winner's fetch completes), the first caller to run its
transaction is the only one that issues a TMDB fetch; every other caller
observes status=populating and returns Skip (the Skip return is
`done none`), so exactly one fetch is issued. -/
theorem C1_single_flight {n : Nat} (pd : String → Option Int)
    (ev : Fin n × Int) (events : List (Fin n × Int)) (d0 : Option SeasonCache)
    (helig : d0 = none ∨ ∃ c, d0 = some c ∧ c.status = CacheStatus.complete ∧
      isCacheStale ev.2 pd c = true)
    (hall : ∀ i : Fin n, i ∈ ((ev :: events).map Prod.fst)) :
    (flightRun pd (ev :: events) d0).pcs ev.1 = FlightPC.fetching ∧
    (∀ j, j ≠ ev.1 → (flightRun pd (ev :: events) d0).pcs j = FlightPC.done none) ∧
    (Finset.univ.filter
      fun i => (flightRun pd (ev :: events) d0).pcs i = FlightPC.fetching).card = 1 := by
  have hfirst := flightInv_first pd ev d0 helig
  have hmain := fold_inv pd ev.1 events (applyTxn pd (initFlight n d0) ev) hfirst
  have hrun : flightRun pd (ev :: events) d0 =
      events.foldl (applyTxn pd) (applyTxn pd (initFlight n d0) ev) := by
    rw [flightRun, List.foldl_cons]
  rw [hrun]
  have hw := hmain.1.2.1
  have hothers : ∀ j, j ≠ ev.1 →
      (events.foldl (applyTxn pd) (applyTxn pd (initFlight n d0) ev)).pcs j =
        FlightPC.done none := by
    intro j hj
    have hjmem := hall j
    simp only [List.map_cons, List.mem_cons] at hjmem
    rcases hjmem with hje | hje
    · exact absurd hje hj
    · exact hmain.2 j hj hje
  refine ⟨hw, hothers, ?_⟩
  have hfilter : (Finset.univ.filter
      fun i => (events.foldl (applyTxn pd) (applyTxn pd (initFlight n d0) ev)).pcs i =
        FlightPC.fetching) = {ev.1} := by
    ext i
    simp only [Finset.mem_filter, Finset.mem_univ, true_and, Finset.mem_singleton]
    constructor
    · intro hi
      by_contra hne
      rw [hothers i hne] at hi
      exact absurd hi (by simp)
    · intro hi
      subst hi
      exact hw
  rw [hfilter, Finset.card_singleton]

/-- Witness for C1: three concurrent callers, missing entry, the first caller
fetches, callers 1 and 2 return Skip. -/
theorem C1_single_flight_witness :
    (((none : Option SeasonCache) = none ∨ ∃ c, (none : Option SeasonCache) = some c ∧
        c.status = CacheStatus.complete ∧ isCacheStale 5 (fun _ => none) c = true) ∧
      (∀ i : Fin 3, i ∈ (([((0 : Fin 3), (5 : Int)), (1, 6), (2, 7)]).map Prod.fst))) ∧
    ((flightRun (fun _ => none) [((0 : Fin 3), (5 : Int)), (1, 6), (2, 7)] none).pcs
        (0 : Fin 3) = FlightPC.fetching ∧
      (∀ j, j ≠ (0 : Fin 3) →
        (flightRun (fun _ => none) [((0 : Fin 3), (5 : Int)), (1, 6), (2, 7)] none).pcs j =
          FlightPC.done none) ∧
      (Finset.univ.filter
        fun i => (flightRun (fun _ => none) [((0 : Fin 3), (5 : Int)), (1, 6), (2, 7)] none).pcs
          i = FlightPC.fetching).card = 1) :=
  ⟨⟨Or.inl rfl, by decide⟩,
    C1_single_flight (fun _ => none) ((0 : Fin 3), (5 : Int)) [(1, 6), (2, 7)] none
      (Or.inl rfl) (by decide)⟩

/-! ## Enrichment engine (`src/unnamed/part_003`, `enrichEpisodeTracking`,
lines 201-304)

Composite keys of the episode-tracking record have the shape
`"{seasonNumber}_{episodeNumber}"`; they are embedded as `Nat × Nat`
(season, episode).  The function groups keys by season, fetches each season
once, and merges cached fields into a copy of the input map while reading
records from the original map.  The outcome of `getSeasonFromCacheOrTMDB`
for each season is the abstract parameter `seasonResult` ("whatever the
cache returns"); `none` is the Skip outcome.  JavaScript iterates the
numeric `episodesBySeason` keys in ascending order; the per-season key
buckets are disjoint, so the first-occurrence order used by `List.dedup`
yields the same map. -/

/-- A `watchedAt` value as found in a stored record: a Firestore `Timestamp`,
a raw epoch-milliseconds number, or a date string. -/
inductive WatchedAtVal
  | ts (ms : Int)
  | num (ms : Int)
  | str (s : String)
deriving DecidableEq, Repr

/-- One episode-tracking record (`episodes[key]` in part_003).  The record is
open in JavaScript; the embedding keeps exactly the fields the enrichment
code reads or writes (`...episode` spreads the rest unchanged). -/
structure EpisodeRecord where
  watched : Option Bool
  watchedAt : Option WatchedAtVal
  episodeId : Option Int
  episodeName : Option String
  episodeAirDate : Option String
  episodeNumber : Option Nat
  seasonNumber : Option Nat
  tvShowId : Option Nat
deriving DecidableEq, Repr

/-- JavaScript truthiness of an optional number (0 and undefined are falsy). -/
def truthyIntOpt : Option Int → Bool
  | none => false
  | some n => n != 0

/-- JavaScript truthiness of an optional natural (0 and undefined are falsy). -/
def truthyNatOpt : Option Nat → Bool
  | none => false
  | some n => n != 0

/-- JavaScript truthiness of an optional string (empty and undefined are falsy). -/
def truthyStrOpt : Option String → Bool
  | none => false
  | some s => s != ""

/-- `watchedAtNeedsNormalization` (part_003 lines 245-249): truthy, not a
`Timestamp`, and of number or string type. -/
def watchedAtNeedsNormalization : Option WatchedAtVal → Bool
  | some (WatchedAtVal.num m) => m != 0
  | some (WatchedAtVal.str s) => s != ""
  | _ => false

/-- The already-fully-enriched test (part_003 lines 252-260): every metadata
field truthy and no watchedAt normalization pending. -/
def fullyEnriched (ep : EpisodeRecord) : Bool :=
  truthyIntOpt ep.episodeId && truthyStrOpt ep.episodeName &&
    truthyStrOpt ep.episodeAirDate && truthyNatOpt ep.episodeNumber &&
    truthyNatOpt ep.seasonNumber && truthyNatOpt ep.tvShowId &&
    !(watchedAtNeedsNormalization ep.watchedAt)

/-- Normalization of `watchedAt` (part_003 lines 272-280): a number becomes
`Timestamp.fromMillis`, a parseable string becomes `Timestamp.fromDate`,
an unparseable string (NaN date) is left as is. -/
def normalizeWatchedAt (pd : String → Option Int) : Option WatchedAtVal → Option WatchedAtVal
  | some (WatchedAtVal.num m) => some (WatchedAtVal.ts m)
  | some (WatchedAtVal.str s) =>
    match pd s with
    | some ms => some (WatchedAtVal.ts ms)
    | none => some (WatchedAtVal.str s)
  | w => w

/-- The merged record written for one enriched episode (part_003 lines
283-293): spread the original record, overwrite watchedAt with its
normalized form, and set the metadata fields from the cached episode. -/
def mergeEnrich (pd : String → Option Int) (showId : Nat) (seasonNumber episodeNumber : Nat)
    (ep : EpisodeRecord) (ce : SeasonCacheEpisode) : EpisodeRecord :=
  { ep with
    watchedAt := normalizeWatchedAt pd ep.watchedAt
    episodeId := some ce.episodeId
    episodeName := some ce.episodeName
    episodeAirDate := ce.episodeAirDate
    episodeNumber := some episodeNumber
    seasonNumber := some seasonNumber
    tvShowId := some showId }

/-- The body of the per-episode loop (part_003 lines 241-296): read the record
from the ORIGINAL map, skip it when fully enriched or absent from the
fetched season, otherwise write the merged record into the copy. -/
def enrichStep (pd : String → Option Int) (showId : Nat)
    (episodes : List ((Nat × Nat) × EpisodeRecord)) (s : Nat) (seasonCache : SeasonCache)
    (acc : List ((Nat × Nat) × EpisodeRecord)) (k : Nat × Nat) :
    List ((Nat × Nat) × EpisodeRecord) :=
  match episodes.lookup k with
  | none => acc
  | some episode =>
    if fullyEnriched episode then acc
    else
      match seasonCache.episodes.lookup k.2 with
      | none => acc
      | some cachedEpisode =>
        jsSet acc k (mergeEnrich pd showId s k.2 episode cachedEpisode)

/-- `enrichEpisodeTracking` (part_003 lines 201-304). -/
def enrichEpisodeTracking (showId : Nat) (pd : String → Option Int)
    (seasonResult : Nat → Option SeasonCache)
    (episodes : List ((Nat × Nat) × EpisodeRecord)) :
    List ((Nat × Nat) × EpisodeRecord) :=
  ((episodes.map Prod.fst).map Prod.fst).dedup.foldl
    (fun acc s =>
      match seasonResult s with
      | none => acc
      | some seasonCache =>
        ((episodes.map Prod.fst).filter (fun k => k.1 = s)).foldl
          (enrichStep pd showId episodes s seasonCache) acc)
    episodes

/-! ### Association-list lemmas used by the enrichment proofs -/

theorem lookup_none_of_not_mem_keys {α β : Type} [BEq α] [LawfulBEq α]
    {l : List (α × β)} {k : α} (h : k ∉ l.map Prod.fst) : l.lookup k = none := by
  induction l with
  | nil => rfl
  | cons p l ih =>
    obtain ⟨pk, pv⟩ := p
    simp only [List.map_cons, List.mem_cons, not_or] at h
    have hne : (k == pk) = false := beq_eq_false_iff_ne.mpr h.1
    simp only [List.lookup, hne]
    exact ih h.2

theorem lookup_append_some {α β : Type} [BEq α] {l1 l2 : List (α × β)} {k : α} {v : β}
    (h : l1.lookup k = some v) : (l1 ++ l2).lookup k = some v := by
  induction l1 with
  | nil => simp [List.lookup] at h
  | cons p l ih =>
    obtain ⟨pk, pv⟩ := p
    cases he : k == pk with
    | true =>
      simp only [List.lookup, he] at h ⊢
      exact h
    | false =>
      simp only [List.lookup, he] at h
      simpa [List.lookup, he] using ih h

theorem lookup_append_none {α β : Type} [BEq α] {l1 l2 : List (α × β)} {k : α}
    (h : l1.lookup k = none) : (l1 ++ l2).lookup k = l2.lookup k := by
  induction l1 with
  | nil => rfl
  | cons p l ih =>
    obtain ⟨pk, pv⟩ := p
    cases he : k == pk with
    | true => simp [List.lookup, he] at h
    | false =>
      simp only [List.lookup, he] at h
      simpa [List.lookup, he] using ih h

theorem lookup_map_replace_ne {α β : Type} [BEq α] [LawfulBEq α] [DecidableEq α]
    (l : List (α × β)) (k : α) (v : β) {k2 : α} (h : k2 ≠ k) :
    (l.map (fun p => if p.1 = k then (k, v) else p)).lookup k2 = l.lookup k2 := by
  induction l with
  | nil => rfl
  | cons p l ih =>
    obtain ⟨pk, pv⟩ := p
    simp only [List.map_cons]
    by_cases hpk : pk = k
    · subst hpk
      rw [if_pos rfl]
      have hne : (k2 == pk) = false := beq_eq_false_iff_ne.mpr h
      simp only [List.lookup, hne]
      exact ih
    · rw [if_neg hpk]
      cases he : k2 == pk with
      | true => simp only [List.lookup, he]
      | false =>
        simp only [List.lookup, he]
        exact ih

theorem lookup_map_replace_self {α β : Type} [BEq α] [LawfulBEq α] [DecidableEq α]
    (l : List (α × β)) (k : α) (v : β) (hk : k ∈ l.map Prod.fst) :
    (l.map (fun p => if p.1 = k then (k, v) else p)).lookup k = some v := by
  induction l with
  | nil => simp at hk
  | cons p l ih =>
    obtain ⟨pk, pv⟩ := p
    simp only [List.map_cons, List.mem_cons] at hk
    simp only [List.map_cons]
    by_cases hpk : pk = k
    · subst hpk
      rw [if_pos rfl]
      simp [List.lookup]
    · have hk2 : k ∈ l.map Prod.fst := by
        rcases hk with h1 | h1
        · exact absurd h1.symm hpk
        · exact h1
      have hne : (k == pk) = false := beq_eq_false_iff_ne.mpr (fun hh => hpk hh.symm)
      rw [if_neg hpk]
      simp only [List.lookup, hne]
      exact ih hk2

theorem jsSet_lookup_self {α β : Type} [BEq α] [LawfulBEq α] [DecidableEq α]
    (m : List (α × β)) (k : α) (v : β) : (jsSet m k v).lookup k = some v := by
  unfold jsSet
  split_ifs with hmem
  · have hk : k ∈ m.map Prod.fst := by
      rcases List.any_eq_true.mp hmem with ⟨p, hp, hpk⟩
      have : p.1 = k := of_decide_eq_true hpk
      exact this ▸ List.mem_map_of_mem Prod.fst hp
    exact lookup_map_replace_self m k v hk
  · have hk : k ∉ m.map Prod.fst := by
      intro hmem2
      obtain ⟨p, hp, hpk⟩ := List.mem_map.mp hmem2
      exact hmem (List.any_eq_true.mpr ⟨p, hp, decide_eq_true hpk⟩)
    rw [lookup_append_none (lookup_none_of_not_mem_keys hk)]
    simp [List.lookup]

theorem jsSet_lookup_ne {α β : Type} [BEq α] [LawfulBEq α] [DecidableEq α]
    (m : List (α × β)) (k : α) (v : β) {k2 : α} (h : k2 ≠ k) :
    (jsSet m k v).lookup k2 = m.lookup k2 := by
  unfold jsSet
  split_ifs with hmem
  · exact lookup_map_replace_ne m k v h
  · cases hl : m.lookup k2 with
    | some w => exact lookup_append_some hl
    | none =>
      rw [lookup_append_none hl]
      have hne : (k2 == k) = false := beq_eq_false_iff_ne.mpr h
      simp [List.lookup, hne]

theorem jsSet_map_fst {α β : Type} [DecidableEq α]
    (m : List (α × β)) (k : α) (v : β) (hk : k ∈ m.map Prod.fst) :
    (jsSet m k v).map Prod.fst = m.map Prod.fst := by
  unfold jsSet
  have hmem : m.any (fun p => decide (p.1 = k)) = true := by
    obtain ⟨p, hp, hpk⟩ := List.mem_map.mp hk
    exact List.any_eq_true.mpr ⟨p, hp, decide_eq_true hpk⟩
  rw [if_pos hmem, List.map_map]
  apply List.map_congr_left
  intro p hp
  by_cases hpk : p.1 = k
  · simp [hpk]
  · simp [hpk]

/-! ### Master invariant of `enrichEpisodeTracking`

Every key of the result maps either to the unchanged original record, or —
only when the key's season was fetched successfully, the record was not
already fully enriched, and the sub-unit is present in the season data —
to the merge of the original record with the cached episode. -/

def EnrichInv (pd : String → Option Int) (showId : Nat)
    (seasonResult : Nat → Option SeasonCache)
    (episodes acc : List ((Nat × Nat) × EpisodeRecord)) : Prop :=
  acc.map Prod.fst = episodes.map Prod.fst ∧
  ∀ k : Nat × Nat,
    acc.lookup k = episodes.lookup k ∨
    ∃ cache ep ce, seasonResult k.1 = some cache ∧ episodes.lookup k = some ep ∧
      cache.episodes.lookup k.2 = some ce ∧ fullyEnriched ep = false ∧
      acc.lookup k = some (mergeEnrich pd showId k.1 k.2 ep ce)

theorem enrichStep_inv (pd : String → Option Int) (showId : Nat)
    (seasonResult : Nat → Option SeasonCache)
    (episodes : List ((Nat × Nat) × EpisodeRecord)) (s : Nat) (seasonCache : SeasonCache)
    (acc : List ((Nat × Nat) × EpisodeRecord)) (k : Nat × Nat)
    (hres : seasonResult s = some seasonCache) (hk : k.1 = s)
    (h : EnrichInv pd showId seasonResult episodes acc) :
    EnrichInv pd showId seasonResult episodes
      (enrichStep pd showId episodes s seasonCache acc k) := by
  obtain ⟨hkeys, hlk⟩ := h
  unfold enrichStep
  cases hep : episodes.lookup k with
  | none => exact ⟨hkeys, hlk⟩
  | some episode =>
    dsimp only
    by_cases hfe : fullyEnriched episode
    · rw [if_pos hfe]
      exact ⟨hkeys, hlk⟩
    · rw [if_neg hfe]
      cases hce : seasonCache.episodes.lookup k.2 with
      | none => exact ⟨hkeys, hlk⟩
      | some cachedEpisode =>
        constructor
        · have hkmem : k ∈ acc.map Prod.fst := by
            rw [hkeys]
            exact mem_keys_of_lookup hep
          exact (jsSet_map_fst acc k _ hkmem).trans hkeys
        · intro k2
          by_cases hk2 : k2 = k
          · subst hk2
            refine Or.inr ⟨seasonCache, episode, cachedEpisode, ?_, hep, hce,
              Bool.eq_false_iff.mpr hfe, ?_⟩
            · rw [hk]
              exact hres
            · rw [hk]
              exact jsSet_lookup_self acc k2 _
          · rcases hlk k2 with h1 | ⟨c2, e2, ce2, a2, b2, c3, d2, e3⟩
            · exact Or.inl ((jsSet_lookup_ne acc k _ hk2).trans h1)
            · exact Or.inr ⟨c2, e2, ce2, a2, b2, c3, d2,
                (jsSet_lookup_ne acc k _ hk2).trans e3⟩

theorem enrichInner_inv (pd : String → Option Int) (showId : Nat)
    (seasonResult : Nat → Option SeasonCache)
    (episodes : List ((Nat × Nat) × EpisodeRecord)) (s : Nat) (seasonCache : SeasonCache)
    (ks : List (Nat × Nat)) (hks : ∀ k ∈ ks, k.1 = s)
    (hres : seasonResult s = some seasonCache)
    (acc : List ((Nat × Nat) × EpisodeRecord))
    (h : EnrichInv pd showId seasonResult episodes acc) :
    EnrichInv pd showId seasonResult episodes
      (ks.foldl (enrichStep pd showId episodes s seasonCache) acc) := by
  induction ks generalizing acc with
  | nil => exact h
  | cons k ks ih =>
    rw [List.foldl_cons]
    exact ih (fun k2 hk2 => hks k2 (List.mem_cons.mpr (Or.inr hk2))) _
      (enrichStep_inv pd showId seasonResult episodes s seasonCache acc k hres
        (hks k (List.mem_cons_self _ _)) h)

theorem enrichOuter_inv (pd : String → Option Int) (showId : Nat)
    (seasonResult : Nat → Option SeasonCache)
    (episodes : List ((Nat × Nat) × EpisodeRecord)) (sl : List Nat)
    (acc : List ((Nat × Nat) × EpisodeRecord))
    (h : EnrichInv pd showId seasonResult episodes acc) :
    EnrichInv pd showId seasonResult episodes
      (sl.foldl
        (fun acc s =>
          match seasonResult s with
          | none => acc
          | some seasonCache =>
            ((episodes.map Prod.fst).filter (fun k => k.1 = s)).foldl
              (enrichStep pd showId episodes s seasonCache) acc)
        acc) := by
  induction sl generalizing acc with
  | nil => exact h
  | cons s sl ih =>
    rw [List.foldl_cons]
    apply ih
    cases hres : seasonResult s with
    | none => exact h
    | some seasonCache =>
      exact enrichInner_inv pd showId seasonResult episodes s seasonCache _
        (fun k hk2 => of_decide_eq_true (List.mem_filter.mp hk2).2) hres acc h

theorem enrich_spec (showId : Nat) (pd : String → Option Int)
    (seasonResult : Nat → Option SeasonCache)
    (episodes : List ((Nat × Nat) × EpisodeRecord)) :
    EnrichInv pd showId seasonResult episodes
      (enrichEpisodeTracking showId pd seasonResult episodes) := by
  unfold enrichEpisodeTracking
  exact enrichOuter_inv pd showId seasonResult episodes _ episodes
    ⟨rfl, fun _ => Or.inl rfl⟩

/-! ### Claims C3, C9, C10 -/

/-- The time instant denoted by a `watchedAt` value (for a string, the instant
it parses to, if any). -/
def watchedAtInstant (pd : String → Option Int) : Option WatchedAtVal → Option Int
  | none => none
  | some (WatchedAtVal.ts ms) => some ms
  | some (WatchedAtVal.num ms) => some ms
  | some (WatchedAtVal.str s) => pd s

theorem normalize_instant (pd : String → Option Int) (w : Option WatchedAtVal) :
    watchedAtInstant pd (normalizeWatchedAt pd w) = watchedAtInstant pd w := by
  cases w with
  | none => rfl
  | some v =>
    cases v with
    | ts m => rfl
    | num m => rfl
    | str s =>
      cases hp : pd s with
      | none => simp [normalizeWatchedAt, watchedAtInstant, hp]
      | some ms => simp [normalizeWatchedAt, watchedAtInstant, hp]

/-- C3 counterexample: a record whose `watchedAt` is the raw epoch number 1000
comes back with `watchedAt` normalized to a `Timestamp` — the stored
watched-timestamp field is altered by enrichment, refuting the claim as
stated. -/
theorem C3_counterexample :
    ((enrichEpisodeTracking 7 (fun _ => none)
        (fun s => if s = 1 then
          some ⟨[(1, ⟨555, "Pilot", some "2020-01-01"⟩)], 0, CacheStatus.complete⟩
          else none)
        [((1, 1), ⟨some true, some (WatchedAtVal.num 1000), none, none, none, none,
          none, none⟩)]).lookup (1, 1)).map (fun r => r.watchedAt) ≠
      (([((1, 1), (⟨some true, some (WatchedAtVal.num 1000), none, none, none, none,
          none, none⟩ : EpisodeRecord))] :
        List ((Nat × Nat) × EpisodeRecord)).lookup (1, 1)).map (fun r => r.watchedAt) := by
  decide

/-- C3 (amended): for every input record map and whatever the cache returns,
enrichment never alters a record's watched flag, and never alters the time
instant denoted by its watched timestamp — the timestamp's representation
may only be normalized from a raw number or parseable string into the
canonical `Timestamp` carrying the same instant. -/
theorem C3_watched_fields_preserved (showId : Nat) (pd : String → Option Int)
    (seasonResult : Nat → Option SeasonCache)
    (episodes : List ((Nat × Nat) × EpisodeRecord)) :
    ∀ k : Nat × Nat,
      ((enrichEpisodeTracking showId pd seasonResult episodes).lookup k).map
          (fun r => (r.watched, watchedAtInstant pd r.watchedAt)) =
        (episodes.lookup k).map (fun r => (r.watched, watchedAtInstant pd r.watchedAt)) := by
  intro k
  rcases (enrich_spec showId pd seasonResult episodes).2 k with h1 | ⟨c2, e2, ce2, _, hep, _, _, hres⟩
  · rw [h1]
  · rw [hres, hep]
    simp only [Option.map_some', Option.some.injEq, Prod.mk.injEq]
    exact ⟨rfl, normalize_instant pd e2.watchedAt⟩

/-- C9: when the cache returns Skip for a season, every record in that
season's bucket is left entirely unchanged (and the function still returns
a map — Skip is not an error). -/
theorem C9_skip_leaves_bucket_unchanged (showId : Nat) (pd : String → Option Int)
    (seasonResult : Nat → Option SeasonCache)
    (episodes : List ((Nat × Nat) × EpisodeRecord)) (s : Nat)
    (hskip : seasonResult s = none) :
    ∀ k : Nat × Nat, k.1 = s →
      (enrichEpisodeTracking showId pd seasonResult episodes).lookup k =
        episodes.lookup k := by
  intro k hk
  rcases (enrich_spec showId pd seasonResult episodes).2 k with h1 | ⟨c2, e2, ce2, hc2, -, -, -, -⟩
  · exact h1
  · rw [hk, hskip] at hc2
    exact absurd hc2 (by simp)

/-- Witness for C9: every season Skips; the single record is unchanged. -/
theorem C9_skip_leaves_bucket_unchanged_witness :
    ((fun _ : Nat => (none : Option SeasonCache)) 1 = none) ∧
    (((1, 1) : Nat × Nat).1 = 1) ∧
    (enrichEpisodeTracking 7 (fun _ => none) (fun _ => none)
        [((1, 1), ⟨some true, some (WatchedAtVal.ts 5), none, none, none, none,
          none, none⟩)]).lookup (1, 1) =
      ([((1, 1), (⟨some true, some (WatchedAtVal.ts 5), none, none, none, none,
          none, none⟩ : EpisodeRecord))] :
        List ((Nat × Nat) × EpisodeRecord)).lookup (1, 1) :=
  ⟨rfl, rfl,
    C9_skip_leaves_bucket_unchanged 7 (fun _ => none) (fun _ => none)
      [((1, 1), ⟨some true, some (WatchedAtVal.ts 5), none, none, none, none,
        none, none⟩)] 1 rfl (1, 1) rfl⟩

/-- C10: the returned map has exactly the same composite keys as the input
(in order — no record is added or removed), regardless of Skips, fetch
failures, or sub-units absent from the season data; a record whose
sub-unit is absent from its fetched season is returned unchanged. -/
theorem C10_keyset_preserved (showId : Nat) (pd : String → Option Int)
    (seasonResult : Nat → Option SeasonCache)
    (episodes : List ((Nat × Nat) × EpisodeRecord)) :
    (enrichEpisodeTracking showId pd seasonResult episodes).map Prod.fst =
      episodes.map Prod.fst ∧
    ∀ k : Nat × Nat, ∀ cache, seasonResult k.1 = some cache →
      cache.episodes.lookup k.2 = none →
      (enrichEpisodeTracking showId pd seasonResult episodes).lookup k =
        episodes.lookup k := by
  obtain ⟨hkeys, hlk⟩ := enrich_spec showId pd seasonResult episodes
  refine ⟨hkeys, ?_⟩
  intro k cache hc hnone
  rcases hlk k with h1 | ⟨c2, e2, ce2, hc2, -, hce2, -, -⟩
  · exact h1
  · rw [hc] at hc2
    injection hc2 with he
    subst he
    rw [hnone] at hce2
    exact absurd hce2 (by simp)

/-- Witness for C10: the season is fetched but holds only sub-unit 2, while
the record is for sub-unit 1; keys are preserved and the record unchanged. -/
theorem C10_keyset_preserved_witness :
    ((fun s : Nat => if s = 1 then
        some (⟨[(2, ⟨9, "x", none⟩)], 0, CacheStatus.complete⟩ : SeasonCache)
        else none) ((1, 1) : Nat × Nat).1 =
      some (⟨[(2, ⟨9, "x", none⟩)], 0, CacheStatus.complete⟩ : SeasonCache)) ∧
    ((⟨[(2, ⟨9, "x", none⟩)], 0, CacheStatus.complete⟩ : SeasonCache).episodes.lookup
        ((1, 1) : Nat × Nat).2 = none) ∧
    (enrichEpisodeTracking 7 (fun _ => none)
        (fun s => if s = 1 then
          some (⟨[(2, ⟨9, "x", none⟩)], 0, CacheStatus.complete⟩ : SeasonCache)
          else none)
        [((1, 1), ⟨some false, none, none, none, none, none, none, none⟩)]).lookup (1, 1) =
      ([((1, 1), (⟨some false, none, none, none, none, none, none, none⟩ :
        EpisodeRecord))] : List ((Nat × Nat) × EpisodeRecord)).lookup (1, 1) :=
  ⟨by decide, by decide,
    (C10_keyset_preserved 7 (fun _ => none)
      (fun s => if s = 1 then
        some (⟨[(2, ⟨9, "x", none⟩)], 0, CacheStatus.complete⟩ : SeasonCache)
        else none)
      [((1, 1), ⟨some false, none, none, none, none, none, none, none⟩)]).2
      (1, 1) (⟨[(2, ⟨9, "x", none⟩)], 0, CacheStatus.complete⟩ : SeasonCache)
      (by decide) (by decide)⟩

/-! ## Sync orchestrator (`src/lib/trakt-sync.ts` and
`src/lib/logic/transform.ts`, `src/utils/types/trakt.ts`)

The per-user Firestore state is a `UserStore`; document maps are functions
(Firestore maps are unordered key-value maps).  Each upstream pull is an
`Except String` value of the environment (`TraktEnv`); the `String` is the
stringified thrown error as it would be interpolated into the tagged
message.  JavaScript exceptions raised inside a collection body (e.g.
`Timestamp.fromDate` on an unparseable date) are modelled by the collection
function returning `Except.error` with a fixed message constant standing
for the runtime's error text.  `statusLog` is the trace of status writes
(one entry per `updateSyncStatus` call), kept alongside the current
`traktSyncStatus` document to express atomicity claims; it is an
observation of the run, not a stored field. -/

structure TraktIds where
  trakt : Nat
  slug : String
  imdb : Option String
  tmdb : Option Nat
  tvdb : Option Nat
deriving DecidableEq, Repr

structure TraktMovie where
  title : String
  year : Nat
  ids : TraktIds
deriving DecidableEq, Repr

structure TraktShow where
  title : String
  year : Nat
  ids : TraktIds
deriving DecidableEq, Repr

structure TraktEpisode where
  season : Nat
  number : Nat
  title : String
  ids : TraktIds
deriving DecidableEq, Repr

structure TraktWatchedMovie where
  plays : Nat
  last_watched_at : String
  last_updated_at : String
  movie : TraktMovie
deriving DecidableEq, Repr

structure TraktWatchedEpisode where
  number : Nat
  plays : Nat
  last_watched_at : String
deriving DecidableEq, Repr

structure TraktWatchedSeason where
  number : Nat
  episodes : List TraktWatchedEpisode
deriving DecidableEq, Repr

structure TraktWatchedShow where
  plays : Nat
  last_watched_at : String
  last_updated_at : String
  «show» : TraktShow
  seasons : List TraktWatchedSeason
deriving DecidableEq, Repr

/-- `TraktRating`; `type` distinguishes movie/show/season/episode ratings. -/
structure TraktRating where
  rated_at : String
  rating : Nat
  type : String
  movie : Option TraktMovie
  «show» : Option TraktShow
  episode : Option TraktEpisode
deriving DecidableEq, Repr

/-- `TraktList.user`; `isPrivate` embeds the source field `private`
(a Lean keyword). -/
structure TraktListUser where
  username : String
  isPrivate : Bool
  name : String
  vip : Bool
  vip_ep : Bool
deriving DecidableEq, Repr

structure TraktList where
  name : String
  description : String
  privacy : String
  display_numbers : Bool
  allow_comments : Bool
  sort_by : String
  sort_how : String
  created_at : String
  updated_at : String
  item_count : Nat
  comment_count : Nat
  likes : Nat
  ids : TraktIds
  user : TraktListUser
deriving DecidableEq, Repr

structure TraktListItem where
  rank : Nat
  id : Nat
  listed_at : String
  notes : Option String
  type : String
  movie : Option TraktMovie
  «show» : Option TraktShow
  episode : Option TraktEpisode
deriving DecidableEq, Repr

structure TraktWatchlistItem where
  rank : Nat
  id : Nat
  listed_at : String
  notes : Option String
  type : String
  movie : Option TraktMovie
  «show» : Option TraktShow
  episode : Option TraktEpisode
deriving DecidableEq, Repr

structure TraktFavorite where
  id : Nat
  rank : Nat
  listed_at : String
  notes : Option String
  type : String
  movie : Option TraktMovie
  «show» : Option TraktShow
deriving DecidableEq, Repr

/-- The user profile returned by `getUserProfile`; only `username` is
consumed by the orchestrator (for the lists endpoints). -/
structure TraktUserProfile where
  username : String
deriving DecidableEq, Repr

inductive MediaType
  | movie
  | tv
deriving DecidableEq, Repr

inductive WatchStatusVal
  | watching
  | already_watched
  | to_watch
deriving DecidableEq, Repr

/-- `FirestoreWatchlistItem` (types/trakt.ts lines 131-141). -/
structure FirestoreWatchlistItem where
  tmdbId : Nat
  mediaType : MediaType
  status : WatchStatusVal
  addedAt : Int
  lastWatchedAt : Option Int
  traktId : Option Nat
  traktPlays : Option Nat
  title : String
  releaseYear : Option Nat
deriving DecidableEq, Repr

/-- `FirestoreRating` (types/trakt.ts lines 143-150).  Note this type has NO
`id` field — see `syncRatings` below. -/
structure FirestoreRating where
  tmdbId : Nat
  mediaType : MediaType
  rating : Nat
  ratedAt : Int
  traktId : Option Nat
  title : String
deriving DecidableEq, Repr

structure FirestoreListItem where
  tmdbId : Nat
  mediaType : MediaType
  addedAt : Int
  title : String
  traktId : Option Nat
deriving DecidableEq, Repr

/-- List privacy; `privateList` embeds the source's `"private"` (keyword). -/
inductive ListPrivacy
  | publicList
  | privateList
deriving DecidableEq, Repr

/-- `FirestoreList` (types/trakt.ts lines 152-160). -/
structure FirestoreListDoc where
  name : String
  description : String
  createdAt : Int
  updatedAt : Int
  items : List FirestoreListItem
  traktId : Nat
  privacy : ListPrivacy
deriving DecidableEq, Repr

structure FirestoreFavorite where
  tmdbId : Nat
  mediaType : MediaType
  addedAt : Int
  traktId : Option Nat
  title : String
deriving DecidableEq, Repr

/-- One entry of the episode-tracking `seasons` map (types/trakt.ts 178-194). -/
structure EpisodeWatchEntry where
  watched : Bool
  watchedAt : Option Int
  traktPlays : Option Nat
deriving DecidableEq, Repr

/-- `FirestoreEpisodeTracking` (types/trakt.ts lines 178-194): note the data
lives under `seasons`, there is no top-level `episodes` field. -/
structure FirestoreEpisodeTrackingDoc where
  showTmdbId : Nat
  showTitle : String
  traktShowId : Option Nat
  seasons : Nat → Option (Nat → Option EpisodeWatchEntry)

structure SyncItemsCounts where
  movies : Nat
  shows : Nat
  episodes : Nat
  ratings : Nat
  lists : Nat
  favorites : Nat
  watchlistItems : Nat
deriving DecidableEq, Repr

inductive SyncStatusKind
  | in_progress
  | completed
  | failed
deriving DecidableEq, Repr

/-- The persisted `traktSyncStatus` document.  `errors = none` embeds an
absent `errors` field (`updateSyncStatus` only sets it when non-empty). -/
structure TraktSyncStatus where
  userId : String
  lastSyncedAt : Int
  status : SyncStatusKind
  itemsSynced : SyncItemsCounts
  errors : Option (List String)
deriving DecidableEq, Repr

/-- Return value of `syncTraktData` (trakt-sync.ts lines 24-36). -/
structure SyncResult where
  success : Bool
  itemsSynced : SyncItemsCounts
  errors : List String
deriving DecidableEq, Repr

/-- The per-user slice of Firestore touched by one sync run. -/
structure UserStore where
  alreadyWatchedDoc : Option (String × String × Int × (String → Option FirestoreWatchlistItem))
  watchlistItems : String → Option FirestoreWatchlistItem
  watchlistMeta : Option (Int × Nat)
  favoritesItems : String → Option FirestoreFavorite
  favoritesMeta : Option (Int × Nat)
  customLists : Nat → Option FirestoreListDoc
  ratingsCol : String → Option FirestoreRating
  episodeTracking : Nat → Option FirestoreEpisodeTrackingDoc
  traktSyncStatus : Option TraktSyncStatus
  statusLog : List TraktSyncStatus

/-- Environment of one run: outcome of every upstream Trakt pull (the
orchestrator receives a valid bearer token; the Credential Provider is
outside the core). -/
structure TraktEnv where
  profile : Except String TraktUserProfile
  watchedMovies : Except String (List TraktWatchedMovie)
  watchedShows : Except String (List TraktWatchedShow)
  ratings : Except String (List TraktRating)
  watchlist : Except String (List TraktWatchlistItem)
  favorites : Except String (List TraktFavorite)
  userLists : String → Except String (List TraktList)
  listItems : String → String → Except String (List TraktListItem)

/-! ### Transforms (`src/lib/logic/transform.ts`) and store helpers -/

/-- JavaScript truthiness of an optional tmdb id (`!ids.tmdb` is true for
`undefined` and for `0`). -/
def truthyTmdb : Option Nat → Bool
  | none => false
  | some n => n != 0

/-- Point update of a Firestore map field (object key assignment). -/
def fset {α : Type} (m : String → Option α) (k : String) (v : α) :
    String → Option α :=
  fun k2 => if k2 = k then some v else m k2

/-- `merge: true` semantics on a map field: keys of the new map win, other
keys are preserved. -/
def mergeFun {α : Type} (old new : String → Option α) : String → Option α :=
  fun k => match new k with
  | some v => some v
  | none => old k

/-- Sequential full-document writes keyed by trakt list id. -/
def applyListWrites (kvs : List (Nat × FirestoreListDoc))
    (m : Nat → Option FirestoreListDoc) : Nat → Option FirestoreListDoc :=
  kvs.foldl (fun acc p => fun k => if k = p.1 then some p.2 else acc k) m

/-- JavaScript string interpolation of `undefined`. -/
def jsUndefined : String := "undefined"

/-- Fixed stand-in for the runtime text of the error thrown by
`Timestamp.fromDate` on an invalid date.  The exact text is
runtime-defined; no claim depends on it. -/
def invalidDateError : String := "Error: invalid Timestamp date"

/-- Fixed stand-in for the Firestore error thrown by `.doc(undefined)`. -/
def invalidDocPathError : String := "Error: invalid document path"

/-- Fixed stand-in for the TypeError thrown by `Object.keys(undefined)`. -/
def episodesUndefinedError : String := "TypeError: cannot convert undefined to object"

/-- `transformWatchedMovie` (transform.ts lines 19-39).  Returns `none` when
the movie has no truthy tmdb id; an unparseable `last_watched_at` makes
`Timestamp.fromDate` throw — callers test that condition first
(`moviesBadDate`), making the `none` of the date branch unreachable when
they call this. -/
def transformWatchedMovie (pd : String → Option Int) (tm : TraktWatchedMovie) :
    Option FirestoreWatchlistItem :=
  if truthyTmdb tm.movie.ids.tmdb = false then none
  else
    match pd tm.last_watched_at with
    | none => none
    | some ms =>
      some { tmdbId := tm.movie.ids.tmdb.getD 0, mediaType := MediaType.movie,
             status := WatchStatusVal.already_watched, addedAt := ms,
             lastWatchedAt := some ms, traktId := some tm.movie.ids.trakt,
             traktPlays := some tm.plays, title := tm.movie.title,
             releaseYear := some tm.movie.year }

/-- The movie/show null-checks of `transformWatchlistItem` (transform.ts
lines 188-227): a watchlist item is transformable iff it is a movie or
show with a truthy tmdb id (movie checked first). -/
def wlTransformable (w : TraktWatchlistItem) : Bool :=
  match w.movie with
  | some m => truthyTmdb m.ids.tmdb
  | none =>
    match w.«show» with
    | some sh => truthyTmdb sh.ids.tmdb
    | none => false

/-- `transformWatchlistItem` (transform.ts lines 188-227). -/
def transformWatchlistItem (pd : String → Option Int) (w : TraktWatchlistItem) :
    Option FirestoreWatchlistItem :=
  match w.movie with
  | some m =>
    if truthyTmdb m.ids.tmdb = false then none
    else
      match pd w.listed_at with
      | none => none
      | some ms =>
        some { tmdbId := m.ids.tmdb.getD 0, mediaType := MediaType.movie,
               status := WatchStatusVal.to_watch, addedAt := ms,
               lastWatchedAt := none, traktId := some m.ids.trakt,
               traktPlays := none, title := m.title, releaseYear := some m.year }
  | none =>
    match w.«show» with
    | some sh =>
      if truthyTmdb sh.ids.tmdb = false then none
      else
        match pd w.listed_at with
        | none => none
        | some ms =>
          some { tmdbId := sh.ids.tmdb.getD 0, mediaType := MediaType.tv,
                 status := WatchStatusVal.to_watch, addedAt := ms,
                 lastWatchedAt := none, traktId := some sh.ids.trakt,
                 traktPlays := none, title := sh.title, releaseYear := some sh.year }
    | none => none

/-- Null-checks of `transformFavorite` (transform.ts lines 232-266). -/
def favTransformable (f : TraktFavorite) : Bool :=
  match f.movie with
  | some m => truthyTmdb m.ids.tmdb
  | none =>
    match f.«show» with
    | some sh => truthyTmdb sh.ids.tmdb
    | none => false

/-- `transformFavorite` (transform.ts lines 232-266). -/
def transformFavorite (pd : String → Option Int) (f : TraktFavorite) :
    Option FirestoreFavorite :=
  match f.movie with
  | some m =>
    if truthyTmdb m.ids.tmdb = false then none
    else
      match pd f.listed_at with
      | none => none
      | some ms =>
        some { tmdbId := m.ids.tmdb.getD 0, mediaType := MediaType.movie,
               addedAt := ms, traktId := some m.ids.trakt, title := m.title }
  | none =>
    match f.«show» with
    | some sh =>
      if truthyTmdb sh.ids.tmdb = false then none
      else
        match pd f.listed_at with
        | none => none
        | some ms =>
          some { tmdbId := sh.ids.tmdb.getD 0, mediaType := MediaType.tv,
                 addedAt := ms, traktId := some sh.ids.trakt, title := sh.title }
    | none => none

/-- Null-checks of `transformListItem` (transform.ts lines 148-183). -/
def liTransformable (it : TraktListItem) : Bool :=
  match it.movie with
  | some m => truthyTmdb m.ids.tmdb
  | none =>
    match it.«show» with
    | some sh => truthyTmdb sh.ids.tmdb
    | none => false

/-- `transformListItem` (transform.ts lines 148-183). -/
def transformListItem (pd : String → Option Int) (it : TraktListItem) :
    Option FirestoreListItem :=
  match it.movie with
  | some m =>
    if truthyTmdb m.ids.tmdb = false then none
    else
      match pd it.listed_at with
      | none => none
      | some ms =>
        some { tmdbId := m.ids.tmdb.getD 0, mediaType := MediaType.movie,
               addedAt := ms, title := m.title, traktId := some m.ids.trakt }
  | none =>
    match it.«show» with
    | some sh =>
      if truthyTmdb sh.ids.tmdb = false then none
      else
        match pd it.listed_at with
        | none => none
        | some ms =>
          some { tmdbId := sh.ids.tmdb.getD 0, mediaType := MediaType.tv,
                 addedAt := ms, title := sh.title, traktId := some sh.ids.trakt }
    | none => none

/-- Null-checks of `transformRating` (transform.ts lines 103-143): the rating
is for a movie or (else) a show and that item has a truthy tmdb id. -/
def ratingTmdbOk (r : TraktRating) : Bool :=
  match r.movie with
  | some m => truthyTmdb m.ids.tmdb
  | none =>
    match r.«show» with
    | some sh => truthyTmdb sh.ids.tmdb
    | none => false

/-! ### Per-collection sync functions (`src/lib/trakt-sync.ts`) -/

/-- True when some movie with a truthy tmdb id has an unparseable
`last_watched_at`: `transformWatchedMovie` throws inside the loop of
`syncAlreadyWatched` before its single write. -/
def moviesBadDate (pd : String → Option Int) (ms : List TraktWatchedMovie) : Bool :=
  ms.any (fun tm => truthyTmdb tm.movie.ids.tmdb && (pd tm.last_watched_at).isNone)

/-- The `items` object built by `syncAlreadyWatched` (trakt-sync.ts lines
171-180).  The item key is written as `movie-` followed by `item.id`; a
`FirestoreWatchlistItem` has no `id` field, so JavaScript interpolates
the string `undefined` and every movie collapses onto the single key
`movie-undefined`. -/
def alreadyWatchedItems (pd : String → Option Int) (ms : List TraktWatchedMovie) :
    String → Option FirestoreWatchlistItem :=
  ms.foldl
    (fun acc tm =>
      match transformWatchedMovie pd tm with
      | none => acc
      | some item => fset acc ("movie-" ++ jsUndefined) item)
    (fun _ => none)

/-- `count` of `syncAlreadyWatched`: one per movie whose transform is
non-null, i.e. (in the non-throwing case) per movie with a truthy tmdb id. -/
def watchedMoviesCount (ms : List TraktWatchedMovie) : Nat :=
  (ms.filter (fun tm => truthyTmdb tm.movie.ids.tmdb)).length

/-- `syncAlreadyWatched` (trakt-sync.ts lines 165-201): build the items map,
then one `set` with `merge: true` onto `lists/already-watched` when
`count > 0` (id and name rewritten, `createdAt` refreshed to now, items
deep-merged).  An unparseable watched date throws before the write. -/
def syncAlreadyWatched (t : Int) (pd : String → Option Int)
    (ms : List TraktWatchedMovie) (s : UserStore) : Except String (Nat × UserStore) :=
  if moviesBadDate pd ms then Except.error invalidDateError
  else
    let items := alreadyWatchedItems pd ms
    let count := watchedMoviesCount ms
    let oldItems : String → Option FirestoreWatchlistItem :=
      match s.alreadyWatchedDoc with
      | some d => d.2.2.2
      | none => fun _ => none
    let newDoc := some ("already-watched", "Already Watched", t, mergeFun oldItems items)
    Except.ok (count,
      if count > 0 then { s with alreadyWatchedDoc := newDoc } else s)

/-- `syncWatchedShows` (trakt-sync.ts lines 206-264).  For the first show with
a truthy tmdb id the loop evaluates
`Object.keys(episodeTracking.episodes).length` — but
`FirestoreEpisodeTracking` has a `seasons` field, not `episodes`, so the
access yields `undefined` and `Object.keys` throws a TypeError (an
unparseable episode watch date makes `transformEpisodeTracking` throw even
earlier).  The throw happens before `episodeBatch.commit()` and before the
already-watched write, so the collection never writes anything; with no
truthy-tmdb show the loop finishes with zero counts and also writes
nothing. -/
def syncWatchedShows (pd : String → Option Int) (shows : List TraktWatchedShow)
    (s : UserStore) : Except String ((Nat × Nat) × UserStore) :=
  match shows.find? (fun ts => truthyTmdb ts.«show».ids.tmdb) with
  | some ts =>
    if ts.seasons.any (fun se => se.episodes.any (fun ep => (pd ep.last_watched_at).isNone))
    then Except.error invalidDateError
    else Except.error episodesUndefinedError
  | none => Except.ok ((0, 0), s)

/-- `syncRatings` (trakt-sync.ts lines 269-295): the document path is
`.doc(rating.id)`, but `FirestoreRating` has no `id` field, so Firestore
throws on the first transformable rating (after `Timestamp.fromDate`
throws if that rating's `rated_at` is unparseable); the batch is never
committed, so the ratings collection never writes and its count is
always 0. -/
def syncRatings (pd : String → Option Int) (rs : List TraktRating) (s : UserStore) :
    Except String (Nat × UserStore) :=
  match rs.find? ratingTmdbOk with
  | some r =>
    if (pd r.rated_at).isNone then Except.error invalidDateError
    else Except.error invalidDocPathError
  | none => Except.ok (0, s)

/-- True when some transformable watchlist item has an unparseable
`listed_at` (`transformWatchlistItem` throws mid-loop). -/
def wlBadDate (pd : String → Option Int) (ws : List TraktWatchlistItem) : Bool :=
  ws.any (fun w => wlTransformable w && (pd w.listed_at).isNone)

/-- The `items` object of `syncWatchlist` (trakt-sync.ts lines 305-315).  The
key is written as `item.media_type` and `item.id` joined by a hyphen;
neither field exists on `FirestoreWatchlistItem`, so every item collapses
onto the single key `undefined-undefined`. -/
def watchlistItemsMap (pd : String → Option Int) (ws : List TraktWatchlistItem) :
    String → Option FirestoreWatchlistItem :=
  ws.foldl
    (fun acc w =>
      match transformWatchlistItem pd w with
      | none => acc
      | some item => fset acc (jsUndefined ++ "-" ++ jsUndefined) item)
    (fun _ => none)

/-- `count` of `syncWatchlist`: one per transformable item. -/
def watchlistCount (ws : List TraktWatchlistItem) : Nat :=
  (ws.filter wlTransformable).length

/-- `syncWatchlist` (trakt-sync.ts lines 301-337): one `set` with
`merge: true` onto `lists/watchlist` when `count > 0`, writing the items
map and `metadata.lastUpdated = now`, `metadata.itemCount = count`. -/
def syncWatchlist (t : Int) (pd : String → Option Int)
    (ws : List TraktWatchlistItem) (s : UserStore) : Except String (Nat × UserStore) :=
  if wlBadDate pd ws then Except.error invalidDateError
  else
    let count := watchlistCount ws
    Except.ok (count,
      if count > 0 then
        { s with
          watchlistItems := mergeFun s.watchlistItems (watchlistItemsMap pd ws),
          watchlistMeta := some (t, count) }
      else s)

/-- True when some transformable favorite has an unparseable `listed_at`. -/
def favBadDate (pd : String → Option Int) (fs : List TraktFavorite) : Bool :=
  fs.any (fun f => favTransformable f && (pd f.listed_at).isNone)

/-- The `items` object of `syncFavorites` (trakt-sync.ts lines 347-357); as
for the watchlist, every favorite collapses onto `undefined-undefined`. -/
def favoritesItemsMap (pd : String → Option Int) (fs : List TraktFavorite) :
    String → Option FirestoreFavorite :=
  fs.foldl
    (fun acc f =>
      match transformFavorite pd f with
      | none => acc
      | some item => fset acc (jsUndefined ++ "-" ++ jsUndefined) item)
    (fun _ => none)

/-- `count` of `syncFavorites`. -/
def favoritesCount (fs : List TraktFavorite) : Nat :=
  (fs.filter favTransformable).length

/-- `syncFavorites` (trakt-sync.ts lines 343-379). -/
def syncFavorites (t : Int) (pd : String → Option Int)
    (fs : List TraktFavorite) (s : UserStore) : Except String (Nat × UserStore) :=
  if favBadDate pd fs then Except.error invalidDateError
  else
    let count := favoritesCount fs
    Except.ok (count,
      if count > 0 then
        { s with
          favoritesItems := mergeFun s.favoritesItems (favoritesItemsMap pd fs),
          favoritesMeta := some (t, count) }
      else s)

/-- The transformed items array of one custom list. -/
def listItemsArr (pd : String → Option Int) (its : List TraktListItem) :
    List FirestoreListItem :=
  its.filterMap (transformListItem pd)

/-- The `FirestoreList` document built for one custom list (trakt-sync.ts
lines 408-416).  `description || ""` is the identity on strings. -/
def mkFirestoreList (l : TraktList) (ca ua : Int) (items : List FirestoreListItem) :
    FirestoreListDoc :=
  { name := l.name, description := l.description, createdAt := ca, updatedAt := ua,
    items := items, traktId := l.ids.trakt,
    privacy := if l.privacy = "public" then ListPrivacy.publicList
      else ListPrivacy.privateList }

/-- The document written for one custom list, or `none` when the list is
skipped: its items fetch failed, an item's `listed_at` is unparseable, or
the list's own `created_at`/`updated_at` is unparseable (each of these
throws inside the per-list try and is caught at trakt-sync.ts lines
427-429). -/
def listWriteOf (pd : String → Option Int)
    (fetchItems : String → Except String (List TraktListItem))
    (l : TraktList) : Option (Nat × FirestoreListDoc) :=
  match fetchItems l.ids.slug with
  | Except.error _ => none
  | Except.ok its =>
    if its.any (fun it => liTransformable it && (pd it.listed_at).isNone) then none
    else
      match pd l.created_at, pd l.updated_at with
      | some ca, some ua => some (l.ids.trakt, mkFirestoreList l ca ua (listItemsArr pd its))
      | _, _ => none

/-- The list documents successfully written by `syncCustomLists`, in order. -/
def listWrites (pd : String → Option Int)
    (fetchItems : String → Except String (List TraktListItem))
    (ls : List TraktList) : List (Nat × FirestoreListDoc) :=
  ls.filterMap (listWriteOf pd fetchItems)

/-- One iteration of the `syncCustomLists` loop (trakt-sync.ts lines
393-430): fetch the list's items, transform them, build the document and
`set` it (full overwrite, no merge) at `lists/trakt_{id}`, incrementing
the count; any thrown error skips just this list. -/
def customListStep (pd : String → Option Int)
    (fetchItems : String → Except String (List TraktListItem))
    (acc : Nat × UserStore) (l : TraktList) : Nat × UserStore :=
  match fetchItems l.ids.slug with
  | Except.error _ => acc
  | Except.ok its =>
    if its.any (fun it => liTransformable it && (pd it.listed_at).isNone) then acc
    else
      match pd l.created_at, pd l.updated_at with
      | some ca, some ua =>
        let doc := mkFirestoreList l ca ua (listItemsArr pd its)
        let prev := acc.2.customLists
        let upd := fun k => if k = l.ids.trakt then some doc else prev k
        (acc.1 + 1, { acc.2 with customLists := upd })
      | _, _ => acc

/-- `syncCustomLists` (trakt-sync.ts lines 384-433): process each list
sequentially, counting successes; per-list failures are swallowed. -/
def syncCustomLists (pd : String → Option Int)
    (fetchItems : String → Except String (List TraktListItem))
    (ls : List TraktList) (s : UserStore) : Nat × UserStore :=
  ls.foldl (customListStep pd fetchItems) (0, s)

/-- The `syncStatus` object built by `updateSyncStatus` (trakt-sync.ts lines
444-453); the `errors` field is set only when the passed list is
non-empty. -/
def mkStatusDoc (userId : String) (t : Int) (st : SyncStatusKind)
    (counts : SyncItemsCounts) (errs : Option (List String)) : TraktSyncStatus :=
  { userId := userId, lastSyncedAt := t, status := st, itemsSynced := counts,
    errors := match errs with
      | some es => if es.isEmpty then none else some es
      | none => none }

/-- `updateSyncStatus` (trakt-sync.ts lines 438-458): one atomic update of the
`traktSyncStatus` field, appended to the write trace. -/
def updateSyncStatus (userId : String) (t : Int) (st : SyncStatusKind)
    (counts : SyncItemsCounts) (errs : Option (List String)) (s : UserStore) : UserStore :=
  let doc := mkStatusDoc userId t st counts errs
  { s with traktSyncStatus := some doc, statusLog := s.statusLog ++ [doc] }

/-- All-zero `itemsSynced` (trakt-sync.ts lines 46-54). -/
def zeroCounts : SyncItemsCounts :=
  { movies := 0, shows := 0, episodes := 0, ratings := 0, lists := 0,
    favorites := 0, watchlistItems := 0 }

/-- The try/catch block of collection 1 (trakt-sync.ts lines 64-75): a thrown
error — from the pull or from inside `syncAlreadyWatched` — is converted
into a tagged message and the store is left as it was. -/
def moviesColl (t : Int) (pd : String → Option Int)
    (res : Except String (List TraktWatchedMovie)) (s : UserStore) :
    Nat × Option String × UserStore :=
  match res with
  | Except.error e => (0, some ("Failed to sync watched movies: " ++ e), s)
  | Except.ok ms =>
    match syncAlreadyWatched t pd ms s with
    | Except.error e => (0, some ("Failed to sync watched movies: " ++ e), s)
    | Except.ok r => (r.1, none, r.2)

/-- The try/catch block of collection 2 (trakt-sync.ts lines 78-87). -/
def showsColl (pd : String → Option Int)
    (res : Except String (List TraktWatchedShow)) (s : UserStore) :
    (Nat × Nat) × Option String × UserStore :=
  match res with
  | Except.error e => ((0, 0), some ("Failed to sync watched shows: " ++ e), s)
  | Except.ok shows =>
    match syncWatchedShows pd shows s with
    | Except.error e => ((0, 0), some ("Failed to sync watched shows: " ++ e), s)
    | Except.ok r => (r.1, none, r.2)

/-- The try/catch block of collection 3 (trakt-sync.ts lines 90-97). -/
def ratingsColl (pd : String → Option Int)
    (res : Except String (List TraktRating)) (s : UserStore) :
    Nat × Option String × UserStore :=
  match res with
  | Except.error e => (0, some ("Failed to sync ratings: " ++ e), s)
  | Except.ok rs =>
    match syncRatings pd rs s with
    | Except.error e => (0, some ("Failed to sync ratings: " ++ e), s)
    | Except.ok r => (r.1, none, r.2)

/-- The try/catch block of collection 4 (trakt-sync.ts lines 100-107). -/
def watchlistColl (t : Int) (pd : String → Option Int)
    (res : Except String (List TraktWatchlistItem)) (s : UserStore) :
    Nat × Option String × UserStore :=
  match res with
  | Except.error e => (0, some ("Failed to sync watchlist: " ++ e), s)
  | Except.ok ws =>
    match syncWatchlist t pd ws s with
    | Except.error e => (0, some ("Failed to sync watchlist: " ++ e), s)
    | Except.ok r => (r.1, none, r.2)

/-- The try/catch block of collection 5 (trakt-sync.ts lines 110-117). -/
def favoritesColl (t : Int) (pd : String → Option Int)
    (res : Except String (List TraktFavorite)) (s : UserStore) :
    Nat × Option String × UserStore :=
  match res with
  | Except.error e => (0, some ("Failed to sync favorites: " ++ e), s)
  | Except.ok fs =>
    match syncFavorites t pd fs s with
    | Except.error e => (0, some ("Failed to sync favorites: " ++ e), s)
    | Except.ok r => (r.1, none, r.2)

/-- The try/catch block of collection 6 (trakt-sync.ts lines 120-132):
`syncCustomLists` itself never throws (per-list errors are swallowed at
lines 427-429), so only the `getUserLists` pull can fail here. -/
def customListsColl (pd : String → Option Int)
    (fetchItems : String → Except String (List TraktListItem))
    (res : Except String (List TraktList)) (s : UserStore) :
    Nat × Option String × UserStore :=
  match res with
  | Except.error e => (0, some ("Failed to sync custom lists: " ++ e), s)
  | Except.ok ls =>
    let r := syncCustomLists pd fetchItems ls s
    (r.1, none, r.2)

/-- `syncTraktData` (trakt-sync.ts lines 41-160): mark in_progress, fetch the
profile (a failure is the fatal path), run the six collections each in its
own try/catch appending a tagged error on failure, then persist the final
status, counts and errors in one update. -/
def syncTraktData (t : Int) (pd : String → Option Int) (env : TraktEnv)
    (userId : String) (s : UserStore) : SyncResult × UserStore :=
  let s1 := updateSyncStatus userId t SyncStatusKind.in_progress zeroCounts none s
  match env.profile with
  | Except.error e =>
    let errs := ["Fatal sync error: " ++ e]
    (⟨false, zeroCounts, errs⟩,
      updateSyncStatus userId t SyncStatusKind.failed zeroCounts (some errs) s1)
  | Except.ok userProfile =>
    let r1 := moviesColl t pd env.watchedMovies s1
    let r2 := showsColl pd env.watchedShows r1.2.2
    let r3 := ratingsColl pd env.ratings r2.2.2
    let r4 := watchlistColl t pd env.watchlist r3.2.2
    let r5 := favoritesColl t pd env.favorites r4.2.2
    let r6 := customListsColl pd (env.listItems userProfile.username)
      (env.userLists userProfile.username) r5.2.2
    let errs := [r1.2.1, r2.2.1, r3.2.1, r4.2.1, r5.2.1, r6.2.1].filterMap id
    let counts : SyncItemsCounts :=
      { movies := r1.1, shows := r2.1.1, episodes := r2.1.2, ratings := r3.1,
        lists := r6.1, favorites := r5.1, watchlistItems := r4.1 }
    let s2 := updateSyncStatus userId t
      (if errs.isEmpty then SyncStatusKind.completed else SyncStatusKind.failed)
      counts (some errs) r6.2.2
    (⟨errs.isEmpty, counts, errs⟩, s2)

/-! ### Closed forms of each collection's observables -/

/-- The tagged error produced by collection 1, if any. -/
def moviesErr (pd : String → Option Int)
    (res : Except String (List TraktWatchedMovie)) : Option String :=
  match res with
  | Except.error e => some ("Failed to sync watched movies: " ++ e)
  | Except.ok ms =>
    if moviesBadDate pd ms then
      some ("Failed to sync watched movies: " ++ invalidDateError)
    else none

/-- `itemsSynced.movies` produced by collection 1. -/
def moviesCountOf (pd : String → Option Int)
    (res : Except String (List TraktWatchedMovie)) : Nat :=
  match res with
  | Except.error _ => 0
  | Except.ok ms => if moviesBadDate pd ms then 0 else watchedMoviesCount ms

/-- The `lists/already-watched` document after collection 1 ran. -/
def awAfter (t : Int) (pd : String → Option Int)
    (res : Except String (List TraktWatchedMovie))
    (aw : Option (String × String × Int × (String → Option FirestoreWatchlistItem))) :
    Option (String × String × Int × (String → Option FirestoreWatchlistItem)) :=
  match res with
  | Except.error _ => aw
  | Except.ok ms =>
    if moviesBadDate pd ms then aw
    else if watchedMoviesCount ms > 0 then
      some ("already-watched", "Already Watched", t,
        mergeFun (match aw with | some d => d.2.2.2 | none => fun _ => none)
          (alreadyWatchedItems pd ms))
    else aw

/-- The tagged error produced by collection 2, if any. -/
def showsErr (pd : String → Option Int)
    (res : Except String (List TraktWatchedShow)) : Option String :=
  match res with
  | Except.error e => some ("Failed to sync watched shows: " ++ e)
  | Except.ok shows =>
    match shows.find? (fun ts => truthyTmdb ts.«show».ids.tmdb) with
    | some ts =>
      if ts.seasons.any (fun se => se.episodes.any (fun ep => (pd ep.last_watched_at).isNone))
      then some ("Failed to sync watched shows: " ++ invalidDateError)
      else some ("Failed to sync watched shows: " ++ episodesUndefinedError)
    | none => none

/-- The tagged error produced by collection 3, if any. -/
def ratingsErr (pd : String → Option Int)
    (res : Except String (List TraktRating)) : Option String :=
  match res with
  | Except.error e => some ("Failed to sync ratings: " ++ e)
  | Except.ok rs =>
    match rs.find? ratingTmdbOk with
    | some r =>
      if (pd r.rated_at).isNone then some ("Failed to sync ratings: " ++ invalidDateError)
      else some ("Failed to sync ratings: " ++ invalidDocPathError)
    | none => none

/-- The tagged error produced by collection 4, if any. -/
def watchlistErr (pd : String → Option Int)
    (res : Except String (List TraktWatchlistItem)) : Option String :=
  match res with
  | Except.error e => some ("Failed to sync watchlist: " ++ e)
  | Except.ok ws =>
    if wlBadDate pd ws then some ("Failed to sync watchlist: " ++ invalidDateError)
    else none

/-- `itemsSynced.watchlistItems` produced by collection 4. -/
def wlCountOf (pd : String → Option Int)
    (res : Except String (List TraktWatchlistItem)) : Nat :=
  match res with
  | Except.error _ => 0
  | Except.ok ws => if wlBadDate pd ws then 0 else watchlistCount ws

/-- The `lists/watchlist` items map after collection 4 ran. -/
def wlItemsAfter (pd : String → Option Int)
    (res : Except String (List TraktWatchlistItem))
    (items : String → Option FirestoreWatchlistItem) :
    String → Option FirestoreWatchlistItem :=
  match res with
  | Except.error _ => items
  | Except.ok ws =>
    if wlBadDate pd ws then items
    else if watchlistCount ws > 0 then mergeFun items (watchlistItemsMap pd ws)
    else items

/-- The `lists/watchlist` metadata after collection 4 ran. -/
def wlMetaAfter (t : Int) (pd : String → Option Int)
    (res : Except String (List TraktWatchlistItem))
    (meta : Option (Int × Nat)) : Option (Int × Nat) :=
  match res with
  | Except.error _ => meta
  | Except.ok ws =>
    if wlBadDate pd ws then meta
    else if watchlistCount ws > 0 then some (t, watchlistCount ws)
    else meta

/-- The tagged error produced by collection 5, if any. -/
def favoritesErr (pd : String → Option Int)
    (res : Except String (List TraktFavorite)) : Option String :=
  match res with
  | Except.error e => some ("Failed to sync favorites: " ++ e)
  | Except.ok fs =>
    if favBadDate pd fs then some ("Failed to sync favorites: " ++ invalidDateError)
    else none

/-- `itemsSynced.favorites` produced by collection 5. -/
def favCountOf (pd : String → Option Int)
    (res : Except String (List TraktFavorite)) : Nat :=
  match res with
  | Except.error _ => 0
  | Except.ok fs => if favBadDate pd fs then 0 else favoritesCount fs

/-- The `lists/favorites` items map after collection 5 ran. -/
def favItemsAfter (pd : String → Option Int)
    (res : Except String (List TraktFavorite))
    (items : String → Option FirestoreFavorite) : String → Option FirestoreFavorite :=
  match res with
  | Except.error _ => items
  | Except.ok fs =>
    if favBadDate pd fs then items
    else if favoritesCount fs > 0 then mergeFun items (favoritesItemsMap pd fs)
    else items

/-- The `lists/favorites` metadata after collection 5 ran. -/
def favMetaAfter (t : Int) (pd : String → Option Int)
    (res : Except String (List TraktFavorite))
    (meta : Option (Int × Nat)) : Option (Int × Nat) :=
  match res with
  | Except.error _ => meta
  | Except.ok fs =>
    if favBadDate pd fs then meta
    else if favoritesCount fs > 0 then some (t, favoritesCount fs)
    else meta

/-- The tagged error produced by collection 6, if any. -/
def listsErr (res : Except String (List TraktList)) : Option String :=
  match res with
  | Except.error e => some ("Failed to sync custom lists: " ++ e)
  | Except.ok _ => none

/-- `itemsSynced.lists` produced by collection 6. -/
def listsCountOf (pd : String → Option Int)
    (fetchItems : String → Except String (List TraktListItem))
    (res : Except String (List TraktList)) : Nat :=
  match res with
  | Except.error _ => 0
  | Except.ok ls => (listWrites pd fetchItems ls).length

/-- The custom-list documents after collection 6 ran. -/
def clAfter (pd : String → Option Int)
    (fetchItems : String → Except String (List TraktListItem))
    (res : Except String (List TraktList))
    (m : Nat → Option FirestoreListDoc) : Nat → Option FirestoreListDoc :=
  match res with
  | Except.error _ => m
  | Except.ok ls => applyListWrites (listWrites pd fetchItems ls) m

/-- The run's error list: the tagged errors of the six collections in
execution order. -/
def collectErrors (pd : String → Option Int) (env : TraktEnv) (u : String) :
    List String :=
  [moviesErr pd env.watchedMovies, showsErr pd env.watchedShows,
   ratingsErr pd env.ratings, watchlistErr pd env.watchlist,
   favoritesErr pd env.favorites, listsErr (env.userLists u)].filterMap id

/-- The run's `itemsSynced` record. -/
def syncCountsOf (pd : String → Option Int) (env : TraktEnv) (u : String) :
    SyncItemsCounts :=
  { movies := moviesCountOf pd env.watchedMovies, shows := 0, episodes := 0,
    ratings := 0, lists := listsCountOf pd (env.listItems u) (env.userLists u),
    favorites := favCountOf pd env.favorites,
    watchlistItems := wlCountOf pd env.watchlist }

/-- The final status document persisted by a run whose profile fetch
succeeded. -/
def finalStatusDoc (t : Int) (pd : String → Option Int) (env : TraktEnv)
    (userId : String) (u : String) : TraktSyncStatus :=
  mkStatusDoc userId t
    (if (collectErrors pd env u).isEmpty then SyncStatusKind.completed
     else SyncStatusKind.failed)
    (syncCountsOf pd env u) (some (collectErrors pd env u))

/-- The store after a run whose profile fetch succeeded. -/
def syncStoreAfter (t : Int) (pd : String → Option Int) (env : TraktEnv)
    (userId : String) (u : String) (s : UserStore) : UserStore :=
  { s with
    alreadyWatchedDoc := awAfter t pd env.watchedMovies s.alreadyWatchedDoc,
    watchlistItems := wlItemsAfter pd env.watchlist s.watchlistItems,
    watchlistMeta := wlMetaAfter t pd env.watchlist s.watchlistMeta,
    favoritesItems := favItemsAfter pd env.favorites s.favoritesItems,
    favoritesMeta := favMetaAfter t pd env.favorites s.favoritesMeta,
    customLists := clAfter pd (env.listItems u) (env.userLists u) s.customLists,
    traktSyncStatus := some (finalStatusDoc t pd env userId u),
    statusLog := s.statusLog ++
      [mkStatusDoc userId t SyncStatusKind.in_progress zeroCounts none,
       finalStatusDoc t pd env userId u] }

/-! ### Decomposition lemmas -/

theorem moviesColl_spec (t : Int) (pd : String → Option Int)
    (res : Except String (List TraktWatchedMovie)) (s : UserStore) :
    moviesColl t pd res s =
      (moviesCountOf pd res, moviesErr pd res,
       { s with alreadyWatchedDoc := awAfter t pd res s.alreadyWatchedDoc }) := by
  cases res with
  | error e => rfl
  | ok ms =>
    unfold moviesColl syncAlreadyWatched moviesCountOf moviesErr awAfter
    cases hbad : moviesBadDate pd ms with
    | true => simp [hbad]
    | false =>
      by_cases hc : watchedMoviesCount ms > 0 <;> simp [hbad, hc]

theorem showsColl_spec (pd : String → Option Int)
    (res : Except String (List TraktWatchedShow)) (s : UserStore) :
    showsColl pd res s = ((0, 0), showsErr pd res, s) := by
  cases res with
  | error e => rfl
  | ok shows =>
    unfold showsColl syncWatchedShows showsErr
    cases hf : shows.find? (fun ts => truthyTmdb ts.«show».ids.tmdb) with
    | none => simp [hf]
    | some ts =>
      cases hb : ts.seasons.any
          (fun se => se.episodes.any (fun ep => (pd ep.last_watched_at).isNone)) with
      | true => simp [hf, hb]
      | false => simp [hf, hb]

theorem ratingsColl_spec (pd : String → Option Int)
    (res : Except String (List TraktRating)) (s : UserStore) :
    ratingsColl pd res s = (0, ratingsErr pd res, s) := by
  cases res with
  | error e => rfl
  | ok rs =>
    unfold ratingsColl syncRatings ratingsErr
    cases hf : rs.find? ratingTmdbOk with
    | none => simp [hf]
    | some r =>
      cases hb : (pd r.rated_at).isNone with
      | true => simp [hf, hb]
      | false => simp [hf, hb]

theorem watchlistColl_spec (t : Int) (pd : String → Option Int)
    (res : Except String (List TraktWatchlistItem)) (s : UserStore) :
    watchlistColl t pd res s =
      (wlCountOf pd res, watchlistErr pd res,
       { s with watchlistItems := wlItemsAfter pd res s.watchlistItems,
                watchlistMeta := wlMetaAfter t pd res s.watchlistMeta }) := by
  cases res with
  | error e => rfl
  | ok ws =>
    unfold watchlistColl syncWatchlist wlCountOf watchlistErr wlItemsAfter wlMetaAfter
    cases hbad : wlBadDate pd ws with
    | true => simp [hbad]
    | false =>
      by_cases hc : watchlistCount ws > 0 <;> simp [hbad, hc]

theorem favoritesColl_spec (t : Int) (pd : String → Option Int)
    (res : Except String (List TraktFavorite)) (s : UserStore) :
    favoritesColl t pd res s =
      (favCountOf pd res, favoritesErr pd res,
       { s with favoritesItems := favItemsAfter pd res s.favoritesItems,
                favoritesMeta := favMetaAfter t pd res s.favoritesMeta }) := by
  cases res with
  | error e => rfl
  | ok fs =>
    unfold favoritesColl syncFavorites favCountOf favoritesErr favItemsAfter favMetaAfter
    cases hbad : favBadDate pd fs with
    | true => simp [hbad]
    | false =>
      by_cases hc : favoritesCount fs > 0 <;> simp [hbad, hc]


theorem customListStep_eq (pd : String → Option Int)
    (fetchItems : String → Except String (List TraktListItem))
    (acc : Nat × UserStore) (l : TraktList) :
    customListStep pd fetchItems acc l =
      (match listWriteOf pd fetchItems l with
       | none => acc
       | some kv =>
         (acc.1 + 1, { acc.2 with customLists :=
            fun k => if k = kv.1 then some kv.2 else acc.2.customLists k })) := by
  unfold customListStep listWriteOf
  cases hf : fetchItems l.ids.slug with
  | error e => simp [hf]
  | ok its =>
    cases hb : its.any (fun it => liTransformable it && (pd it.listed_at).isNone) with
    | true => simp [hf, hb]
    | false =>
      cases hca : pd l.created_at with
      | none => simp [hf, hb, hca]
      | some ca =>
        cases hua : pd l.updated_at with
        | none => simp [hf, hb, hca, hua]
        | some ua => simp [hf, hb, hca, hua]

theorem syncCustomLists_fold (pd : String → Option Int)
    (fetchItems : String → Except String (List TraktListItem)) :
    ∀ (ls : List TraktList) (n : Nat) (s : UserStore),
      ls.foldl (customListStep pd fetchItems) (n, s) =
        (n + (listWrites pd fetchItems ls).length,
         { s with customLists := applyListWrites (listWrites pd fetchItems ls) s.customLists }) := by
  intro ls
  induction ls with
  | nil =>
    intro n s
    simp [listWrites, applyListWrites]
  | cons l ls ih =>
    intro n s
    rw [List.foldl_cons, customListStep_eq]
    cases hw : listWriteOf pd fetchItems l with
    | none =>
      have hlw : listWrites pd fetchItems (l :: ls) = listWrites pd fetchItems ls := by
        simp [listWrites, hw]
      rw [hlw]
      exact ih n s
    | some kv =>
      have hlw : listWrites pd fetchItems (l :: ls) = kv :: listWrites pd fetchItems ls := by
        simp [listWrites, hw]
      rw [hlw]
      show ls.foldl (customListStep pd fetchItems)
          (n + 1, { s with customLists :=
            fun k => if k = kv.1 then some kv.2 else s.customLists k }) = _
      rw [ih]
      simp only [Prod.mk.injEq, List.length_cons]
      refine ⟨by omega, ?_⟩
      rfl

theorem syncCustomLists_spec (pd : String → Option Int)
    (fetchItems : String → Except String (List TraktListItem))
    (ls : List TraktList) (s : UserStore) :
    syncCustomLists pd fetchItems ls s =
      ((listWrites pd fetchItems ls).length,
       { s with customLists := applyListWrites (listWrites pd fetchItems ls) s.customLists }) := by
  unfold syncCustomLists
  rw [syncCustomLists_fold]
  simp

theorem customListsColl_spec (pd : String → Option Int)
    (fetchItems : String → Except String (List TraktListItem))
    (res : Except String (List TraktList)) (s : UserStore) :
    customListsColl pd fetchItems res s =
      (listsCountOf pd fetchItems res, listsErr res,
       { s with customLists := clAfter pd fetchItems res s.customLists }) := by
  cases res with
  | error e => rfl
  | ok ls =>
    unfold customListsColl listsCountOf listsErr clAfter
    dsimp only
    rw [syncCustomLists_spec]

/-- Decomposition of a profile-ok run into the per-collection closed forms:
each collection's count, tagged error and store effect depend only on that
collection's own pull outcome, and the final status write carries the
accumulated counts and errors. -/
theorem syncTraktData_spec (t : Int) (pd : String → Option Int) (env : TraktEnv)
    (userId : String) (s : UserStore) (prof : TraktUserProfile)
    (hp : env.profile = Except.ok prof) :
    syncTraktData t pd env userId s =
      (⟨(collectErrors pd env prof.username).isEmpty,
        syncCountsOf pd env prof.username,
        collectErrors pd env prof.username⟩,
       syncStoreAfter t pd env userId prof.username s) := by
  unfold syncTraktData
  rw [hp]
  dsimp only
  simp only [moviesColl_spec, showsColl_spec, ratingsColl_spec, watchlistColl_spec,
    favoritesColl_spec, customListsColl_spec]
  unfold syncStoreAfter finalStatusDoc collectErrors syncCountsOf updateSyncStatus
  simp [List.append_assoc]

/-! ### Claim C4: per-collection failure isolation -/

/-- C4: with the profile fetched, the run's errors are exactly the tagged
errors of the failing collections in order, each count depends only on its
own collection's outcome, and in particular a thrown ratings pull leaves
its tagged error in the list while the watchlist, favorites and custom
lists collections still run, are written, and report their counts. -/
theorem C4_failure_isolation (t : Int) (pd : String → Option Int) (env : TraktEnv)
    (userId : String) (s : UserStore) (prof : TraktUserProfile)
    (hp : env.profile = Except.ok prof) :
    (syncTraktData t pd env userId s).1.errors = collectErrors pd env prof.username ∧
    (syncTraktData t pd env userId s).1.itemsSynced = syncCountsOf pd env prof.username ∧
    (∀ e, env.ratings = Except.error e →
      ("Failed to sync ratings: " ++ e) ∈ (syncTraktData t pd env userId s).1.errors ∧
      (syncTraktData t pd env userId s).1.itemsSynced.watchlistItems =
        wlCountOf pd env.watchlist ∧
      (syncTraktData t pd env userId s).1.itemsSynced.favorites =
        favCountOf pd env.favorites ∧
      (syncTraktData t pd env userId s).1.itemsSynced.lists =
        listsCountOf pd (env.listItems prof.username) (env.userLists prof.username) ∧
      (syncTraktData t pd env userId s).2.watchlistItems =
        wlItemsAfter pd env.watchlist s.watchlistItems ∧
      (syncTraktData t pd env userId s).2.favoritesItems =
        favItemsAfter pd env.favorites s.favoritesItems ∧
      (syncTraktData t pd env userId s).2.customLists =
        clAfter pd (env.listItems prof.username) (env.userLists prof.username)
          s.customLists) := by
  rw [syncTraktData_spec t pd env userId s prof hp]
  refine ⟨rfl, rfl, ?_⟩
  intro e hre
  refine ⟨?_, rfl, rfl, rfl, rfl, rfl, rfl⟩
  simp [collectErrors, ratingsErr, hre]

/-- Concrete environment for the C4 witness: ratings pull throws, everything
else succeeds with empty data. -/
def c4Env : TraktEnv :=
  ⟨Except.ok ⟨"u"⟩, Except.ok [], Except.ok [], Except.error "boom",
   Except.ok [], Except.ok [], fun _ => Except.ok [], fun _ _ => Except.ok []⟩

/-- Empty store for the C4 witness. -/
def c4Store : UserStore :=
  ⟨none, fun _ => none, none, fun _ => none, none, fun _ => none,
   fun _ => none, fun _ => none, none, []⟩

/-- Witness for C4 at a concrete failing ratings pull. -/
theorem C4_failure_isolation_witness :
    (c4Env.profile = Except.ok ⟨"u"⟩) ∧
    (c4Env.ratings = Except.error "boom") ∧
    ("Failed to sync ratings: " ++ "boom") ∈
      (syncTraktData 3 (fun _ => none) c4Env "uid" c4Store).1.errors :=
  ⟨rfl, rfl,
    ((C4_failure_isolation 3 (fun _ => none) c4Env "uid" c4Store ⟨"u"⟩ rfl).2.2
      "boom" rfl).1⟩

/-! ### Claim C5: final status persisted atomically -/

/-- C5: after a run in which all collections were attempted (profile ok), the
status writes are exactly the in_progress write followed by ONE final
write; the final document carries status failed iff the error list is
non-empty (completed iff empty) together with the run's itemsSynced and
its error list (the `errors` field is present exactly when non-empty). -/
theorem C5_final_status_atomic (t : Int) (pd : String → Option Int) (env : TraktEnv)
    (userId : String) (s : UserStore) (prof : TraktUserProfile)
    (hp : env.profile = Except.ok prof) :
    (syncTraktData t pd env userId s).2.statusLog =
      s.statusLog ++
        [mkStatusDoc userId t SyncStatusKind.in_progress zeroCounts none,
         finalStatusDoc t pd env userId prof.username] ∧
    (syncTraktData t pd env userId s).2.traktSyncStatus =
      some (finalStatusDoc t pd env userId prof.username) ∧
    ((finalStatusDoc t pd env userId prof.username).status = SyncStatusKind.failed ↔
      (syncTraktData t pd env userId s).1.errors ≠ []) ∧
    ((finalStatusDoc t pd env userId prof.username).status = SyncStatusKind.completed ↔
      (syncTraktData t pd env userId s).1.errors = []) ∧
    (finalStatusDoc t pd env userId prof.username).itemsSynced =
      (syncTraktData t pd env userId s).1.itemsSynced ∧
    (finalStatusDoc t pd env userId prof.username).errors =
      (if (syncTraktData t pd env userId s).1.errors.isEmpty then none
       else some ((syncTraktData t pd env userId s).1.errors)) := by
  rw [syncTraktData_spec t pd env userId s prof hp]
  refine ⟨rfl, rfl, ?_, ?_, rfl, rfl⟩
  · unfold finalStatusDoc mkStatusDoc
    by_cases he : (collectErrors pd env prof.username).isEmpty
    · simp [he, List.isEmpty_iff.mp he]
    · simp only [he]
      simp [List.isEmpty_iff] at he
      simp [he]
  · unfold finalStatusDoc mkStatusDoc
    by_cases he : (collectErrors pd env prof.username).isEmpty
    · simp [he, List.isEmpty_iff.mp he]
    · simp only [he]
      simp [List.isEmpty_iff] at he
      simp [he]

/-- Concrete environment for the C5 witness: every pull succeeds with empty
data. -/
def c5Env : TraktEnv :=
  ⟨Except.ok ⟨"u"⟩, Except.ok [], Except.ok [], Except.ok [],
   Except.ok [], Except.ok [], fun _ => Except.ok [], fun _ _ => Except.ok []⟩

/-- Empty store for the C5 witness. -/
def c5Store : UserStore :=
  ⟨none, fun _ => none, none, fun _ => none, none, fun _ => none,
   fun _ => none, fun _ => none, none, []⟩

/-- Witness for C5 at a concrete all-ok environment. -/
theorem C5_final_status_atomic_witness :
    (c5Env.profile = Except.ok ⟨"u"⟩) ∧
    ((syncTraktData 3 (fun _ => none) c5Env "uid" c5Store).2.statusLog =
      c5Store.statusLog ++
        [mkStatusDoc "uid" 3 SyncStatusKind.in_progress zeroCounts none,
         finalStatusDoc 3 (fun _ => none) c5Env "uid" (⟨"u"⟩ : TraktUserProfile).username]) :=
  ⟨rfl,
    (C5_final_status_atomic 3 (fun _ => none) c5Env "uid" c5Store ⟨"u"⟩ rfl).1⟩

/-! ### Claim C7: re-running with unchanged upstream data -/

theorem mergeFun_idem {α : Type} (old i : String → Option α) :
    mergeFun (mergeFun old i) i = mergeFun old i := by
  funext k
  unfold mergeFun
  cases i k <;> rfl

theorem applyListWrites_apply (kvs : List (Nat × FirestoreListDoc)) :
    ∀ (m : Nat → Option FirestoreListDoc) (k : Nat),
      applyListWrites kvs m k =
        kvs.foldl (fun acc p => if k = p.1 then some p.2 else acc) (m k) := by
  induction kvs with
  | nil => intro m k; rfl
  | cons p kvs ih =>
    intro m k
    show applyListWrites kvs (fun k2 => if k2 = p.1 then some p.2 else m k2) k = _
    rw [ih]
    rw [List.foldl_cons]

theorem foldl_write_seed (k : Nat) (kvs : List (Nat × FirestoreListDoc)) :
    ∀ (x : Option FirestoreListDoc),
      kvs.foldl (fun acc p => if k = p.1 then some p.2 else acc) x =
        (match kvs.foldl (fun acc p => if k = p.1 then some p.2 else acc) none with
         | some v => some v
         | none => x) := by
  induction kvs with
  | nil => intro x; rfl
  | cons p kvs ih =>
    intro x
    rw [List.foldl_cons, List.foldl_cons]
    by_cases hk : k = p.1
    · rw [if_pos hk, if_pos hk]
      rw [ih (some p.2)]
      cases hM : kvs.foldl (fun acc p => if k = p.1 then some p.2 else acc) none <;>
        simp [hM]
    · rw [if_neg hk, if_neg hk]
      exact ih x

theorem applyListWrites_idem (kvs : List (Nat × FirestoreListDoc))
    (m : Nat → Option FirestoreListDoc) :
    applyListWrites kvs (applyListWrites kvs m) = applyListWrites kvs m := by
  funext k
  rw [applyListWrites_apply kvs (applyListWrites kvs m) k, applyListWrites_apply kvs m k]
  rw [foldl_write_seed k kvs
    (kvs.foldl (fun acc p => if k = p.1 then some p.2 else acc) (m k))]
  rw [foldl_write_seed k kvs (m k)]
  cases hM : kvs.foldl (fun acc p => if k = p.1 then some p.2 else acc) none <;>
    simp [hM]

/-- View of the already-watched document without its refreshed `createdAt`. -/
def awView :
    Option (String × String × Int × (String → Option FirestoreWatchlistItem)) →
    Option (String × String × (String → Option FirestoreWatchlistItem))
  | none => none
  | some d => some (d.1, d.2.1, d.2.2.2)

/-- View of an items-doc metadata without its refreshed `lastUpdated`. -/
def metaView : Option (Int × Nat) → Option Nat
  | none => none
  | some m => some m.2

/-- View of the status document without its refreshed `lastSyncedAt`. -/
def statusView :
    Option TraktSyncStatus →
    Option (String × SyncStatusKind × SyncItemsCounts × Option (List String))
  | none => none
  | some d => some (d.userId, d.status, d.itemsSynced, d.errors)

/-- All stored fields of the user's slice except the refreshed timestamps
(`createdAt` of already-watched, `metadata.lastUpdated` of
watchlist/favorites, `lastSyncedAt` of the status) and the status write
trace (an observation of the run, not a stored field). -/
def storeView (s : UserStore) :
    Option (String × String × (String → Option FirestoreWatchlistItem)) ×
    (String → Option FirestoreWatchlistItem) × Option Nat ×
    (String → Option FirestoreFavorite) × Option Nat ×
    (Nat → Option FirestoreListDoc) × (String → Option FirestoreRating) ×
    (Nat → Option FirestoreEpisodeTrackingDoc) ×
    Option (String × SyncStatusKind × SyncItemsCounts × Option (List String)) :=
  (awView s.alreadyWatchedDoc, s.watchlistItems, metaView s.watchlistMeta,
   s.favoritesItems, metaView s.favoritesMeta, s.customLists, s.ratingsCol,
   s.episodeTracking, statusView s.traktSyncStatus)

theorem awAfter_idem (t1 t2 : Int) (pd : String → Option Int)
    (res : Except String (List TraktWatchedMovie))
    (aw : Option (String × String × Int × (String → Option FirestoreWatchlistItem))) :
    awView (awAfter t2 pd res (awAfter t1 pd res aw)) = awView (awAfter t1 pd res aw) := by
  cases res with
  | error e => rfl
  | ok ms =>
    unfold awAfter
    cases hbad : moviesBadDate pd ms with
    | true => simp [hbad]
    | false =>
      by_cases hc : watchedMoviesCount ms > 0
      · simp [hbad, hc, awView, mergeFun_idem]
      · simp [hbad, hc]

theorem wlItemsAfter_idem (pd : String → Option Int)
    (res : Except String (List TraktWatchlistItem))
    (items : String → Option FirestoreWatchlistItem) :
    wlItemsAfter pd res (wlItemsAfter pd res items) = wlItemsAfter pd res items := by
  cases res with
  | error e => rfl
  | ok ws =>
    unfold wlItemsAfter
    cases hbad : wlBadDate pd ws with
    | true => simp [hbad]
    | false =>
      by_cases hc : watchlistCount ws > 0
      · simp [hbad, hc, mergeFun_idem]
      · simp [hbad, hc]

theorem wlMetaAfter_idem (t1 t2 : Int) (pd : String → Option Int)
    (res : Except String (List TraktWatchlistItem)) (meta : Option (Int × Nat)) :
    metaView (wlMetaAfter t2 pd res (wlMetaAfter t1 pd res meta)) =
      metaView (wlMetaAfter t1 pd res meta) := by
  cases res with
  | error e => rfl
  | ok ws =>
    unfold wlMetaAfter
    cases hbad : wlBadDate pd ws with
    | true => simp [hbad]
    | false =>
      by_cases hc : watchlistCount ws > 0
      · simp [hbad, hc, metaView]
      · simp [hbad, hc]

theorem favItemsAfter_idem (pd : String → Option Int)
    (res : Except String (List TraktFavorite))
    (items : String → Option FirestoreFavorite) :
    favItemsAfter pd res (favItemsAfter pd res items) = favItemsAfter pd res items := by
  cases res with
  | error e => rfl
  | ok fs =>
    unfold favItemsAfter
    cases hbad : favBadDate pd fs with
    | true => simp [hbad]
    | false =>
      by_cases hc : favoritesCount fs > 0
      · simp [hbad, hc, mergeFun_idem]
      · simp [hbad, hc]

theorem favMetaAfter_idem (t1 t2 : Int) (pd : String → Option Int)
    (res : Except String (List TraktFavorite)) (meta : Option (Int × Nat)) :
    metaView (favMetaAfter t2 pd res (favMetaAfter t1 pd res meta)) =
      metaView (favMetaAfter t1 pd res meta) := by
  cases res with
  | error e => rfl
  | ok fs =>
    unfold favMetaAfter
    cases hbad : favBadDate pd fs with
    | true => simp [hbad]
    | false =>
      by_cases hc : favoritesCount fs > 0
      · simp [hbad, hc, metaView]
      · simp [hbad, hc]

theorem clAfter_idem (pd : String → Option Int)
    (fetchItems : String → Except String (List TraktListItem))
    (res : Except String (List TraktList)) (m : Nat → Option FirestoreListDoc) :
    clAfter pd fetchItems res (clAfter pd fetchItems res m) =
      clAfter pd fetchItems res m := by
  cases res with
  | error e => rfl
  | ok ls =>
    unfold clAfter
    exact applyListWrites_idem _ m

/-- C7: running the orchestrator twice with unchanged upstream data and
unchanged date parsing leaves every stored field unchanged except the
refreshed timestamps (already-watched `createdAt`, watchlist/favorites
`metadata.lastUpdated`, status `lastSyncedAt`). -/
theorem C7_rerun_idempotent (t1 t2 : Int) (pd : String → Option Int) (env : TraktEnv)
    (userId : String) (s : UserStore) :
    storeView (syncTraktData t2 pd env userId (syncTraktData t1 pd env userId s).2).2 =
      storeView (syncTraktData t1 pd env userId s).2 := by
  cases hp : env.profile with
  | error e =>
    simp only [syncTraktData, hp]
    simp [storeView, updateSyncStatus, mkStatusDoc, awView, metaView, statusView]
  | ok prof =>
    rw [syncTraktData_spec t1 pd env userId s prof hp]
    rw [syncTraktData_spec t2 pd env userId _ prof hp]
    unfold storeView syncStoreAfter
    dsimp only
    simp only [Prod.mk.injEq]
    refine ⟨awAfter_idem t1 t2 pd env.watchedMovies s.alreadyWatchedDoc,
      wlItemsAfter_idem pd env.watchlist s.watchlistItems,
      wlMetaAfter_idem t1 t2 pd env.watchlist s.watchlistMeta,
      favItemsAfter_idem pd env.favorites s.favoritesItems,
      favMetaAfter_idem t1 t2 pd env.favorites s.favoritesMeta,
      clAfter_idem pd (env.listItems prof.username) (env.userLists prof.username)
        s.customLists,
      ?_, ?_, ?_⟩ <;> first | rfl | trivial
